import Mathlib

/-!
Shallow embedding of the ADXL372 driver core (register codec, configuration
engine, self-test engine) and proofs about it.

Sources embedded: `src/params.rs`, `src/registers.rs`, `src/config.rs`,
`src/device.rs`, `src/self_test.rs`.

Conventions of the embedding:
* Machine bytes are `Nat` values; registers are structures of raw bit chunks
  (mirroring `modular_bitfield` packed storage, which stores the raw byte and
  extracts bit ranges on access).
* `modular_bitfield` field getters for enumerations that do not fill their bit
  width (`OutputDataRate`, `Bandwidth`, `LinkLoopMode`: `from_bytes` returns
  `Err(InvalidBitPattern)` and the plain getter panics) are modelled as
  `Option`-valued getters; a panic is modelled as the `DErr.panicked` outcome.
* Rust `i16` values are `Int` with explicit saturation/wrapping where the code
  uses `saturating_add` or can overflow; `i16` division is `Int.tdiv`
  (truncation toward zero, as in Rust); the arithmetic right shift used for
  axis unpacking is `Int.fdiv` by 16.
* The SPI/I2C bus is an external collaborator: an `Env` maps the transaction
  history plus a request to a response. Every issued request is recorded,
  newest first, in the device trace, so claims about performed I/O are claims
  about that trace.
* The unbounded self-test sampling loop is embedded with a fuel parameter;
  `collect_loop_fuel_stable` proves the fuel used (201) is past the point
  where the result no longer depends on it, so the embedding agrees with the
  source's unbounded loop.
-/

set_option maxRecDepth 8000

/-- Output data rate selections (`params.rs`, 3-bit specifier with 5 values). -/
inductive OutputDataRate where
  | Od400Hz
  | Od800Hz
  | Od1600Hz
  | Od3200Hz
  | Od6400Hz
deriving DecidableEq

/-- Bit encoding of `OutputDataRate` (the `#[bits = 3]` discriminants). -/
def OutputDataRate.toBits : OutputDataRate → Nat
  | .Od400Hz => 0
  | .Od800Hz => 1
  | .Od1600Hz => 2
  | .Od3200Hz => 3
  | .Od6400Hz => 4

/-- Decode of a 3-bit pattern into `OutputDataRate`; patterns 5..7 are
`InvalidBitPattern` in `modular_bitfield`, modelled as `none`. -/
def OutputDataRate.fromBits : Nat → Option OutputDataRate
  | 0 => some .Od400Hz
  | 1 => some .Od800Hz
  | 2 => some .Od1600Hz
  | 3 => some .Od3200Hz
  | 4 => some .Od6400Hz
  | _ => none

/-- `OutputDataRate::hz` from `params.rs`. -/
def OutputDataRate.hz : OutputDataRate → Nat
  | .Od400Hz => 400
  | .Od800Hz => 800
  | .Od1600Hz => 1600
  | .Od3200Hz => 3200
  | .Od6400Hz => 6400

/-- Analog bandwidth selections (`params.rs`, 3-bit specifier with 5 values). -/
inductive Bandwidth where
  | Bw200Hz
  | Bw400Hz
  | Bw800Hz
  | Bw1600Hz
  | Bw3200Hz
deriving DecidableEq

/-- Bit encoding of `Bandwidth`. -/
def Bandwidth.toBits : Bandwidth → Nat
  | .Bw200Hz => 0
  | .Bw400Hz => 1
  | .Bw800Hz => 2
  | .Bw1600Hz => 3
  | .Bw3200Hz => 4

/-- Decode of a 3-bit pattern into `Bandwidth`; patterns 5..7 are invalid. -/
def Bandwidth.fromBits : Nat → Option Bandwidth
  | 0 => some .Bw200Hz
  | 1 => some .Bw400Hz
  | 2 => some .Bw800Hz
  | 3 => some .Bw1600Hz
  | 4 => some .Bw3200Hz
  | _ => none

/-- `Bandwidth::max_hz` from `params.rs`. -/
def Bandwidth.max_hz : Bandwidth → Nat
  | .Bw200Hz => 200
  | .Bw400Hz => 400
  | .Bw800Hz => 800
  | .Bw1600Hz => 1600
  | .Bw3200Hz => 3200

/-- Wake-up timer selections (`params.rs`, 3-bit specifier, all 8 patterns used). -/
inductive WakeUpRate where
  | Ms52
  | Ms104
  | Ms208
  | Ms512
  | Ms2048
  | Ms4096
  | Ms8192
  | Ms24576
deriving DecidableEq

/-- Bit encoding of `WakeUpRate`. -/
def WakeUpRate.toBits : WakeUpRate → Nat
  | .Ms52 => 0
  | .Ms104 => 1
  | .Ms208 => 2
  | .Ms512 => 3
  | .Ms2048 => 4
  | .Ms4096 => 5
  | .Ms8192 => 6
  | .Ms24576 => 7

/-- Total decode of a 3-bit pattern into `WakeUpRate` (value space fills the
width; the argument is taken modulo 8 to mirror bit-range extraction). -/
def WakeUpRate.ofBits (n : Nat) : WakeUpRate :=
  match n % 8 with
  | 0 => .Ms52
  | 1 => .Ms104
  | 2 => .Ms208
  | 3 => .Ms512
  | 4 => .Ms2048
  | 5 => .Ms4096
  | 6 => .Ms8192
  | _ => .Ms24576

/-- External clock enable bit (`TIMING.EXT_CLK`). -/
inductive ExtClk where
  | Disabled
  | Enabled
deriving DecidableEq

/-- Bit encoding of `ExtClk`. -/
def ExtClk.toBits : ExtClk → Nat
  | .Disabled => 0
  | .Enabled => 1

/-- Total decode of a 1-bit pattern into `ExtClk`. -/
def ExtClk.ofBits (n : Nat) : ExtClk :=
  if n % 2 = 1 then .Enabled else .Disabled

/-- External sync selection bit (`TIMING.EXT_SYNC`). -/
inductive ExtSync where
  | Disabled
  | Enabled
deriving DecidableEq

/-- Bit encoding of `ExtSync`. -/
def ExtSync.toBits : ExtSync → Nat
  | .Disabled => 0
  | .Enabled => 1

/-- Total decode of a 1-bit pattern into `ExtSync`. -/
def ExtSync.ofBits (n : Nat) : ExtSync :=
  if n % 2 = 1 then .Enabled else .Disabled

/-- I2C high-speed mode enable (`TIMING.I2C_HSM_EN` in the datasheet naming;
a `Config` field in this driver). -/
inductive I2cHsmEn where
  | Disabled
  | Enabled
deriving DecidableEq

/-- User overrange disable flag (`MEASURE.USER_OR_DISABLE`). -/
inductive UserOrDisable where
  | Enabled
  | Disabled
deriving DecidableEq

/-- Autosleep control bit (`MEASURE.AUTOSLEEP`). -/
inductive AutoSleep where
  | Disabled
  | Enabled
deriving DecidableEq

/-- Low-noise mode bit (`MEASURE.LOW_NOISE`). The source's second variant is
named `LowNoise` like its type; it is renamed `Low` here because Lean does not
allow a constructor shadowing its own type name in later definitions. -/
inductive LowNoise where
  | Normal
  | Low
deriving DecidableEq

/-- Bit encoding of `LowNoise`. -/
def LowNoise.toBits : LowNoise → Nat
  | .Normal => 0
  | .Low => 1

/-- Total decode of a 1-bit pattern into `LowNoise`. -/
def LowNoise.ofBits (n : Nat) : LowNoise :=
  if n % 2 = 1 then .Low else .Normal

/-- Filter settle durations (`POWER_CTL.FILTER_SETTLE`). -/
inductive SettleFilter where
  | Ms370
  | Ms16
deriving DecidableEq

/-- Bit encoding of `SettleFilter` (`Ms370 = 0`, `Ms16 = 1`). -/
def SettleFilter.toBits : SettleFilter → Nat
  | .Ms370 => 0
  | .Ms16 => 1

/-- Total decode of a 1-bit pattern into `SettleFilter`. -/
def SettleFilter.ofBits (n : Nat) : SettleFilter :=
  if n % 2 = 1 then .Ms16 else .Ms370

/-- `SettleFilter::millis` from `params.rs`. -/
def SettleFilter.millis : SettleFilter → Nat
  | .Ms370 => 370
  | .Ms16 => 16

/-- Instant-on thresholds (`POWER_CTL.INSTANT_ON_THRESH`). -/
inductive InstantOnThreshold where
  | Low
  | High
deriving DecidableEq

/-- Bit encoding of `InstantOnThreshold`. -/
def InstantOnThreshold.toBits : InstantOnThreshold → Nat
  | .Low => 0
  | .High => 1

/-- Total decode of a 1-bit pattern into `InstantOnThreshold`. -/
def InstantOnThreshold.ofBits (n : Nat) : InstantOnThreshold :=
  if n % 2 = 1 then .High else .Low

/-- Link/loop interaction modes (`MEASURE[5:4]`, 2-bit specifier with 3 values). -/
inductive LinkLoopMode where
  | Default
  | Linked
  | Loop
deriving DecidableEq

/-- Bit encoding of `LinkLoopMode`. -/
def LinkLoopMode.toBits : LinkLoopMode → Nat
  | .Default => 0
  | .Linked => 1
  | .Loop => 2

/-- Decode of a 2-bit pattern into `LinkLoopMode`; pattern 3 is invalid. -/
def LinkLoopMode.fromBits : Nat → Option LinkLoopMode
  | 0 => some .Default
  | 1 => some .Linked
  | 2 => some .Loop
  | _ => none

/-- Operating power modes (`POWER_CTL[1:0]`, 2-bit specifier, all 4 used). -/
inductive PowerMode where
  | Standby
  | WakeUp
  | InstantOn
  | Measure
deriving DecidableEq

/-- Bit encoding of `PowerMode`. -/
def PowerMode.toBits : PowerMode → Nat
  | .Standby => 0
  | .WakeUp => 1
  | .InstantOn => 2
  | .Measure => 3

/-- Total decode of a 2-bit pattern into `PowerMode`. -/
def PowerMode.ofBits (n : Nat) : PowerMode :=
  match n % 4 with
  | 0 => .Standby
  | 1 => .WakeUp
  | 2 => .InstantOn
  | _ => .Measure

/-- Low-pass filter disable selection (`FILTER_CTL.LPF_DISABLE`). -/
inductive LpfDisable where
  | Enabled
  | Disabled
deriving DecidableEq

/-- High-pass filter disable selection (`FILTER_CTL.HPF_DISABLE`). -/
inductive HpfDisable where
  | Enabled
  | Disabled
deriving DecidableEq

/-- Register address of `STATUS` (`registers.rs`). -/
def REG_STATUS : Nat := 0x04

/-- Register address of `ZDATA_H`. -/
def REG_ZDATA_H : Nat := 0x0C

/-- Register address of `TIMING`. -/
def REG_TIMING : Nat := 0x3D

/-- Register address of `MEASURE`. -/
def REG_MEASURE : Nat := 0x3E

/-- Register address of `POWER_CTL`. -/
def REG_POWER_CTL : Nat := 0x3F

/-- Register address of `SELF_TEST`. -/
def REG_SELF_TEST : Nat := 0x40

/-- Register address of `RESET`. -/
def REG_RESET : Nat := 0x41

/-- Soft reset command value written to the `RESET` register. -/
def RESET_COMMAND : Nat := 0x52

/-- Bitfield representation of the `TIMING` register (address `0x3D`): raw bit
chunks `ext_sync` (bit 0), `ext_clk` (bit 1), `wake_up_rate` (bits 4:2),
`odr` (bits 7:5). -/
structure Timing where
  ext_syncBits : Nat
  ext_clkBits : Nat
  wake_up_rateBits : Nat
  odrBits : Nat
deriving DecidableEq

/-- `Timing::from_bytes` / `From<u8> for Timing`: split a byte into chunks. -/
def Timing.fromByte (b : Nat) : Timing :=
  { ext_syncBits := b % 2
    ext_clkBits := b / 2 % 2
    wake_up_rateBits := b / 4 % 8
    odrBits := b / 32 % 8 }

/-- `Timing::into_bytes` / `From<Timing> for u8`: reassemble the byte. -/
def Timing.toByte (t : Timing) : Nat :=
  t.ext_syncBits + 2 * t.ext_clkBits + 4 * t.wake_up_rateBits + 32 * t.odrBits

/-- Chunks fit their declared bit widths (true of every value built by
`fromByte` or the setters). -/
def Timing.wf (t : Timing) : Prop :=
  t.ext_syncBits < 2 ∧ t.ext_clkBits < 2 ∧ t.wake_up_rateBits < 8 ∧ t.odrBits < 8

instance (t : Timing) : Decidable t.wf := by
  unfold Timing.wf; infer_instance

/-- Getter `Timing::odr`; `none` models the panic of the generated getter on
bit patterns 5..7, which carry no `OutputDataRate` value. -/
def Timing.odr (t : Timing) : Option OutputDataRate :=
  OutputDataRate.fromBits t.odrBits

/-- Getter `Timing::wake_up_rate` (total: all 8 patterns are valid). -/
def Timing.wake_up_rate (t : Timing) : WakeUpRate :=
  WakeUpRate.ofBits t.wake_up_rateBits

/-- Getter `Timing::ext_clk`. -/
def Timing.ext_clk (t : Timing) : ExtClk :=
  ExtClk.ofBits t.ext_clkBits

/-- Getter `Timing::ext_sync`. -/
def Timing.ext_sync (t : Timing) : ExtSync :=
  ExtSync.ofBits t.ext_syncBits

/-- Setter `Timing::set_odr`. -/
def Timing.set_odr (t : Timing) (v : OutputDataRate) : Timing :=
  { t with odrBits := v.toBits }

/-- Setter `Timing::set_wake_up_rate`. -/
def Timing.set_wake_up_rate (t : Timing) (v : WakeUpRate) : Timing :=
  { t with wake_up_rateBits := v.toBits }

/-- Setter `Timing::set_ext_clk`. -/
def Timing.set_ext_clk (t : Timing) (v : ExtClk) : Timing :=
  { t with ext_clkBits := v.toBits }

/-- Setter `Timing::set_ext_sync`. -/
def Timing.set_ext_sync (t : Timing) (v : ExtSync) : Timing :=
  { t with ext_syncBits := v.toBits }

/-- Bitfield representation of the `MEASURE` register (address `0x3E`):
`bandwidth` (bits 2:0), `low_noise` (bit 3), `link_loop_mode` (bits 5:4),
`autosleep` (bit 6), `user_or_disable` (bit 7). -/
structure Measure where
  bandwidthBits : Nat
  low_noiseBits : Nat
  link_loop_modeBits : Nat
  autosleepBits : Nat
  user_or_disableBits : Nat
deriving DecidableEq

/-- `Measure::from_bytes` / `From<u8> for Measure`. -/
def Measure.fromByte (b : Nat) : Measure :=
  { bandwidthBits := b % 8
    low_noiseBits := b / 8 % 2
    link_loop_modeBits := b / 16 % 4
    autosleepBits := b / 64 % 2
    user_or_disableBits := b / 128 % 2 }

/-- `Measure::into_bytes` / `From<Measure> for u8`. -/
def Measure.toByte (m : Measure) : Nat :=
  m.bandwidthBits + 8 * m.low_noiseBits + 16 * m.link_loop_modeBits +
    64 * m.autosleepBits + 128 * m.user_or_disableBits

/-- Chunks fit their declared bit widths. -/
def Measure.wf (m : Measure) : Prop :=
  m.bandwidthBits < 8 ∧ m.low_noiseBits < 2 ∧ m.link_loop_modeBits < 4 ∧
    m.autosleepBits < 2 ∧ m.user_or_disableBits < 2

instance (m : Measure) : Decidable m.wf := by
  unfold Measure.wf; infer_instance

/-- Getter `Measure::bandwidth`; `none` models the panic on patterns 5..7. -/
def Measure.bandwidth (m : Measure) : Option Bandwidth :=
  Bandwidth.fromBits m.bandwidthBits

/-- Getter `Measure::low_noise`. -/
def Measure.low_noise (m : Measure) : LowNoise :=
  LowNoise.ofBits m.low_noiseBits

/-- Getter `Measure::link_loop_mode`; `none` models the panic on pattern 3. -/
def Measure.link_loop_mode (m : Measure) : Option LinkLoopMode :=
  LinkLoopMode.fromBits m.link_loop_modeBits

/-- Getter `Measure::autosleep` (a `bool` field). -/
def Measure.autosleep (m : Measure) : Bool :=
  m.autosleepBits % 2 = 1

/-- Getter `Measure::user_or_disable` (a `bool` field). -/
def Measure.user_or_disable (m : Measure) : Bool :=
  m.user_or_disableBits % 2 = 1

/-- Setter `Measure::set_bandwidth`. -/
def Measure.set_bandwidth (m : Measure) (v : Bandwidth) : Measure :=
  { m with bandwidthBits := v.toBits }

/-- Setter `Measure::set_low_noise`. -/
def Measure.set_low_noise (m : Measure) (v : LowNoise) : Measure :=
  { m with low_noiseBits := v.toBits }

/-- Setter `Measure::set_link_loop_mode`. -/
def Measure.set_link_loop_mode (m : Measure) (v : LinkLoopMode) : Measure :=
  { m with link_loop_modeBits := v.toBits }

/-- Setter `Measure::set_autosleep`. -/
def Measure.set_autosleep (m : Measure) (v : Bool) : Measure :=
  { m with autosleepBits := if v then 1 else 0 }

/-- Setter `Measure::set_user_or_disable`. -/
def Measure.set_user_or_disable (m : Measure) (v : Bool) : Measure :=
  { m with user_or_disableBits := if v then 1 else 0 }

/-- Bitfield representation of the `POWER_CTL` register (address `0x3F`):
`mode` (bits 1:0), `hpf_disable` (bit 2), `lpf_disable` (bit 3),
`filter_settle` (bit 4), `instant_on_threshold` (bit 5), one reserved skip
bit (bit 6), `i2c_high_speed_enable` (bit 7). -/
structure PowerControl where
  modeBits : Nat
  hpf_disableBits : Nat
  lpf_disableBits : Nat
  filter_settleBits : Nat
  instant_on_thresholdBits : Nat
  skipBits : Nat
  i2c_high_speed_enableBits : Nat
deriving DecidableEq

/-- `PowerControl::from_bytes` / `From<u8> for PowerControl`. -/
def PowerControl.fromByte (b : Nat) : PowerControl :=
  { modeBits := b % 4
    hpf_disableBits := b / 4 % 2
    lpf_disableBits := b / 8 % 2
    filter_settleBits := b / 16 % 2
    instant_on_thresholdBits := b / 32 % 2
    skipBits := b / 64 % 2
    i2c_high_speed_enableBits := b / 128 % 2 }

/-- `PowerControl::into_bytes` / `From<PowerControl> for u8`. -/
def PowerControl.toByte (p : PowerControl) : Nat :=
  p.modeBits + 4 * p.hpf_disableBits + 8 * p.lpf_disableBits +
    16 * p.filter_settleBits + 32 * p.instant_on_thresholdBits +
    64 * p.skipBits + 128 * p.i2c_high_speed_enableBits

/-- Chunks fit their declared bit widths. -/
def PowerControl.wf (p : PowerControl) : Prop :=
  p.modeBits < 4 ∧ p.hpf_disableBits < 2 ∧ p.lpf_disableBits < 2 ∧
    p.filter_settleBits < 2 ∧ p.instant_on_thresholdBits < 2 ∧
    p.skipBits < 2 ∧ p.i2c_high_speed_enableBits < 2

instance (p : PowerControl) : Decidable p.wf := by
  unfold PowerControl.wf; infer_instance

/-- Getter `PowerControl::mode` (total: `PowerMode` fills 2 bits). -/
def PowerControl.mode (p : PowerControl) : PowerMode :=
  PowerMode.ofBits p.modeBits

/-- Getter `PowerControl::hpf_disable` (a `bool` field). -/
def PowerControl.hpf_disable (p : PowerControl) : Bool :=
  p.hpf_disableBits % 2 = 1

/-- Getter `PowerControl::lpf_disable` (a `bool` field). -/
def PowerControl.lpf_disable (p : PowerControl) : Bool :=
  p.lpf_disableBits % 2 = 1

/-- Getter `PowerControl::filter_settle`. -/
def PowerControl.filter_settle (p : PowerControl) : SettleFilter :=
  SettleFilter.ofBits p.filter_settleBits

/-- Getter `PowerControl::instant_on_threshold`. -/
def PowerControl.instant_on_threshold (p : PowerControl) : InstantOnThreshold :=
  InstantOnThreshold.ofBits p.instant_on_thresholdBits

/-- Getter `PowerControl::i2c_high_speed_enable` (a `bool` field). -/
def PowerControl.i2c_high_speed_enable (p : PowerControl) : Bool :=
  p.i2c_high_speed_enableBits % 2 = 1

/-- Setter `PowerControl::set_mode`. -/
def PowerControl.set_mode (p : PowerControl) (v : PowerMode) : PowerControl :=
  { p with modeBits := v.toBits }

/-- Setter `PowerControl::set_hpf_disable`. -/
def PowerControl.set_hpf_disable (p : PowerControl) (v : Bool) : PowerControl :=
  { p with hpf_disableBits := if v then 1 else 0 }

/-- Setter `PowerControl::set_lpf_disable`. -/
def PowerControl.set_lpf_disable (p : PowerControl) (v : Bool) : PowerControl :=
  { p with lpf_disableBits := if v then 1 else 0 }

/-- Setter `PowerControl::set_filter_settle`. -/
def PowerControl.set_filter_settle (p : PowerControl) (v : SettleFilter) : PowerControl :=
  { p with filter_settleBits := v.toBits }

/-- Setter `PowerControl::set_instant_on_threshold`. -/
def PowerControl.set_instant_on_threshold (p : PowerControl) (v : InstantOnThreshold) : PowerControl :=
  { p with instant_on_thresholdBits := v.toBits }

/-- Setter `PowerControl::set_i2c_high_speed_enable`. -/
def PowerControl.set_i2c_high_speed_enable (p : PowerControl) (v : Bool) : PowerControl :=
  { p with i2c_high_speed_enableBits := if v then 1 else 0 }

/-- Bitfield representation of the `SELF_TEST` register (address `0x40`):
`st` (bit 0), `st_done` (bit 1), `user_st` (bit 2), five reserved skip bits
(bits 7:3). -/
structure SelfTest where
  stBits : Nat
  st_doneBits : Nat
  user_stBits : Nat
  skipBits : Nat
deriving DecidableEq

/-- `SelfTest::from_bytes` / `From<u8> for SelfTest`. -/
def SelfTest.fromByte (b : Nat) : SelfTest :=
  { stBits := b % 2
    st_doneBits := b / 2 % 2
    user_stBits := b / 4 % 2
    skipBits := b / 8 % 32 }

/-- `SelfTest::into_bytes` / `From<SelfTest> for u8`. -/
def SelfTest.toByte (r : SelfTest) : Nat :=
  r.stBits + 2 * r.st_doneBits + 4 * r.user_stBits + 8 * r.skipBits

/-- Chunks fit their declared bit widths. -/
def SelfTest.wf (r : SelfTest) : Prop :=
  r.stBits < 2 ∧ r.st_doneBits < 2 ∧ r.user_stBits < 2 ∧ r.skipBits < 32

instance (r : SelfTest) : Decidable r.wf := by
  unfold SelfTest.wf; infer_instance

/-- Getter `SelfTest::st` (a `bool` field). -/
def SelfTest.st (r : SelfTest) : Bool :=
  r.stBits % 2 = 1

/-- Getter `SelfTest::st_done` (a `bool` field). -/
def SelfTest.st_done (r : SelfTest) : Bool :=
  r.st_doneBits % 2 = 1

/-- Getter `SelfTest::user_st` (a `bool` field). -/
def SelfTest.user_st (r : SelfTest) : Bool :=
  r.user_stBits % 2 = 1

/-- Setter `SelfTest::set_st`. -/
def SelfTest.set_st (r : SelfTest) (v : Bool) : SelfTest :=
  { r with stBits := if v then 1 else 0 }

/-- Bitfield representation of the `STATUS` register (address `0x04`):
`data_ready` (bit 0), `fifo_ready` (bit 1), `fifo_full` (bit 2),
`fifo_overrun` (bit 3), one skip bit (bit 4), `user_nvm_busy` (bit 5),
`awake` (bit 6), `err_user_regs` (bit 7). -/
structure Status where
  data_readyBits : Nat
  fifo_readyBits : Nat
  fifo_fullBits : Nat
  fifo_overrunBits : Nat
  skipBits : Nat
  user_nvm_busyBits : Nat
  awakeBits : Nat
  err_user_regsBits : Nat
deriving DecidableEq

/-- `Status::from_bytes` / `From<u8> for Status`. -/
def Status.fromByte (b : Nat) : Status :=
  { data_readyBits := b % 2
    fifo_readyBits := b / 2 % 2
    fifo_fullBits := b / 4 % 2
    fifo_overrunBits := b / 8 % 2
    skipBits := b / 16 % 2
    user_nvm_busyBits := b / 32 % 2
    awakeBits := b / 64 % 2
    err_user_regsBits := b / 128 % 2 }

/-- `Status::into_bytes` / `From<Status> for u8`. -/
def Status.toByte (s : Status) : Nat :=
  s.data_readyBits + 2 * s.fifo_readyBits + 4 * s.fifo_fullBits +
    8 * s.fifo_overrunBits + 16 * s.skipBits + 32 * s.user_nvm_busyBits +
    64 * s.awakeBits + 128 * s.err_user_regsBits

/-- Validation errors from `config.rs`. -/
inductive ConfigError where
  | NyquistViolation
deriving DecidableEq

/-- User-facing configuration for the ADXL372 sensor (`config.rs`). -/
structure Config where
  odr : OutputDataRate
  wakeup_rate : WakeUpRate
  ext_clk : ExtClk
  ext_sync : ExtSync
  user_or_disable : UserOrDisable
  autosleep : AutoSleep
  linkloop : LinkLoopMode
  low_noise : LowNoise
  bandwidth : Bandwidth
  i2c_hsm_en : I2cHsmEn
  instant_on_threshold : InstantOnThreshold
  filter_settle : SettleFilter
  lpf_disable : LpfDisable
  hpf_disable : HpfDisable
  power_mode : PowerMode
deriving DecidableEq

/-- `Config::validate`: rejects a bandwidth of more than half the ODR. -/
def Config.validate (c : Config) : Except ConfigError Unit :=
  if c.bandwidth.max_hz * 2 > c.odr.hz then
    Except.error ConfigError.NyquistViolation
  else
    Except.ok ()

/-- `Config::default` from `config.rs`. -/
def Config.default : Config :=
  { odr := .Od400Hz
    wakeup_rate := .Ms52
    ext_clk := .Disabled
    ext_sync := .Disabled
    user_or_disable := .Enabled
    autosleep := .Disabled
    linkloop := .Default
    low_noise := .Normal
    bandwidth := .Bw200Hz
    i2c_hsm_en := .Disabled
    instant_on_threshold := .Low
    filter_settle := .Ms16
    lpf_disable := .Enabled
    hpf_disable := .Enabled
    power_mode := .Standby }

/-- A bus request as issued by the driver through the `Adxl372Interface`
capability (`interface` module): single-register read or write, or a burst
read of `len` consecutive registers. -/
inductive BusReq where
  | readReg (addr : Nat)
  | writeReg (addr : Nat) (val : Nat)
  | readMany (addr : Nat) (len : Nat)
deriving DecidableEq

deriving instance DecidableEq for Except

/-- One completed bus transaction: the request and the transport's response
(`Except.error e` models a transport failure of type `E`). -/
structure BusEvent (E : Type) where
  req : BusReq
  resp : Except E (List Nat)
deriving DecidableEq

/-- The environment (device + transport): a deterministic response to each
request, possibly depending on the transaction history (newest first). -/
structure Env (E : Type) where
  run : List (BusEvent E) → BusReq → Except E (List Nat)

/-- Driver-visible state: the cached `Config` of the `Adxl372` struct plus the
trace of issued bus transactions (newest first). -/
structure DevSt (E : Type) where
  config : Config
  events : List (BusEvent E)
deriving DecidableEq

/-- Error variants from `error.rs` plus `panicked`, which models a Rust panic
(in this driver: a `modular_bitfield` getter applied to an invalid pattern). -/
inductive DErr (E : Type) where
  | interface (e : E)
  | invalidConfig
  | notReady
  | panicked
deriving DecidableEq

/-- Issue a single-register read, recording the transaction; the returned
byte is masked to 8 bits as the transport hands back a `u8`. -/
def busRead (env : Env E) (s : DevSt E) (addr : Nat) :
    DevSt E × Except (DErr E) Nat :=
  match env.run s.events (BusReq.readReg addr) with
  | Except.error e =>
    ({ s with events :=
        { req := BusReq.readReg addr, resp := Except.error e } :: s.events },
      Except.error (DErr.interface e))
  | Except.ok bs =>
    ({ s with events :=
        { req := BusReq.readReg addr, resp := Except.ok bs } :: s.events },
      Except.ok (bs.headD 0 % 256))

/-- Issue a single-register write, recording the transaction. -/
def busWrite (env : Env E) (s : DevSt E) (addr v : Nat) :
    DevSt E × Except (DErr E) Unit :=
  match env.run s.events (BusReq.writeReg addr v) with
  | Except.error e =>
    ({ s with events :=
        { req := BusReq.writeReg addr v, resp := Except.error e } :: s.events },
      Except.error (DErr.interface e))
  | Except.ok bs =>
    ({ s with events :=
        { req := BusReq.writeReg addr v, resp := Except.ok bs } :: s.events },
      Except.ok ())

/-- Issue a two-byte burst read (as used for one axis), recording the
transaction; bytes are masked to 8 bits. -/
def busRead2 (env : Env E) (s : DevSt E) (addr : Nat) :
    DevSt E × Except (DErr E) (Nat × Nat) :=
  match env.run s.events (BusReq.readMany addr 2) with
  | Except.error e =>
    ({ s with events :=
        { req := BusReq.readMany addr 2, resp := Except.error e } :: s.events },
      Except.error (DErr.interface e))
  | Except.ok bs =>
    ({ s with events :=
        { req := BusReq.readMany addr 2, resp := Except.ok bs } :: s.events },
      Except.ok (bs.getD 0 0 % 256, bs.getD 1 0 % 256))

/-- Two's-complement reading of a 16-bit value (`i16::from_be_bytes`). -/
def toSigned16 (n : Nat) : Int :=
  if n % 65536 < 32768 then (n % 65536 : Int) else (n % 65536 : Int) - 65536

/-- `Adxl372::unpack_axis`: big-endian byte assembly then arithmetic right
shift by 4 (floor division by 16) of the 12-bit left-justified sample. -/
def unpack_axis (msb lsb : Nat) : Int :=
  Int.fdiv (toSigned16 (msb % 256 * 256 + lsb % 256)) 16

/-- `Adxl372::read_z_raw`: burst-read the 2 bytes at `ZDATA_H` and unpack. -/
def read_z_raw (env : Env E) (s : DevSt E) : DevSt E × Except (DErr E) Int :=
  match busRead2 env s REG_ZDATA_H with
  | (s1, Except.error e) => (s1, Except.error e)
  | (s1, Except.ok (b0, b1)) => (s1, Except.ok (unpack_axis b0 b1))

/-- `Adxl372::reset`: write the soft-reset command to the `RESET` register. -/
def reset (env : Env E) (s : DevSt E) : DevSt E × Except (DErr E) Unit :=
  busWrite env s REG_RESET RESET_COMMAND

/-- `Adxl372::update_timing_config` (`device.rs`): read `TIMING`, apply the
field mutation, recheck Nyquist against the cached bandwidth, write back only
when the byte changed, then refresh the cached timing fields from the decoded
register value. `DErr.panicked` models the `timing.odr()` panic on an invalid
ODR pattern. -/
def update_timing_config (env : Env E) (mutate : Timing → Timing) (s : DevSt E) :
    DevSt E × Except (DErr E) Unit :=
  match busRead env s REG_TIMING with
  | (s1, Except.error e) => (s1, Except.error e)
  | (s1, Except.ok current) =>
    let timing := mutate (Timing.fromByte current)
    match timing.odr with
    | none => (s1, Except.error DErr.panicked)
    | some new_odr =>
      if s1.config.bandwidth.max_hz * 2 > new_odr.hz then
        (s1, Except.error DErr.invalidConfig)
      else
        let updated := timing.toByte
        let step :=
          if updated ≠ current then busWrite env s1 REG_TIMING updated
          else (s1, Except.ok ())
        match step with
        | (s2, Except.error e) => (s2, Except.error e)
        | (s2, Except.ok _) =>
          ({ s2 with config := { s2.config with
              odr := new_odr
              wakeup_rate := timing.wake_up_rate
              ext_clk := timing.ext_clk
              ext_sync := timing.ext_sync } }, Except.ok ())

/-- `Adxl372::update_measure_config` (`device.rs`): read `MEASURE`, apply the
mutation, recheck Nyquist against the cached ODR, write back only when
changed, then refresh the cached measurement fields from the decoded value.
The cache refresh assigns field by field, so the `link_loop_mode()` panic on
pattern 3 happens after `bandwidth` and `low_noise` are already updated. -/
def update_measure_config (env : Env E) (mutate : Measure → Measure) (s : DevSt E) :
    DevSt E × Except (DErr E) Unit :=
  match busRead env s REG_MEASURE with
  | (s1, Except.error e) => (s1, Except.error e)
  | (s1, Except.ok current) =>
    let measure := mutate (Measure.fromByte current)
    match measure.bandwidth with
    | none => (s1, Except.error DErr.panicked)
    | some new_bandwidth =>
      if new_bandwidth.max_hz * 2 > s1.config.odr.hz then
        (s1, Except.error DErr.invalidConfig)
      else
        let updated := measure.toByte
        let step :=
          if updated ≠ current then busWrite env s1 REG_MEASURE updated
          else (s1, Except.ok ())
        match step with
        | (s2, Except.error e) => (s2, Except.error e)
        | (s2, Except.ok _) =>
          let cfg1 := { s2.config with
            bandwidth := new_bandwidth
            low_noise := measure.low_noise }
          match measure.link_loop_mode with
          | none => ({ s2 with config := cfg1 }, Except.error DErr.panicked)
          | some ll =>
            ({ s2 with config := { cfg1 with
                linkloop := ll
                autosleep := if measure.autosleep then AutoSleep.Enabled else AutoSleep.Disabled
                user_or_disable :=
                  if measure.user_or_disable then UserOrDisable.Disabled
                  else UserOrDisable.Enabled } }, Except.ok ())

/-- `Adxl372::mutate_power_control` (`device.rs`): read `POWER_CTL`, apply the
mutation, write back only when changed, and return the mutated value. -/
def mutate_power_control (env : Env E) (mutate : PowerControl → PowerControl) (s : DevSt E) :
    DevSt E × Except (DErr E) PowerControl :=
  match busRead env s REG_POWER_CTL with
  | (s1, Except.error e) => (s1, Except.error e)
  | (s1, Except.ok current) =>
    let power := mutate (PowerControl.fromByte current)
    let updated := power.toByte
    let step :=
      if updated ≠ current then busWrite env s1 REG_POWER_CTL updated
      else (s1, Except.ok ())
    match step with
    | (s2, Except.error e) => (s2, Except.error e)
    | (s2, Except.ok _) => (s2, Except.ok power)

/-- `Adxl372::update_power_control` (`device.rs`): `mutate_power_control`
followed by refreshing every cached power-control field from the decoded
value (all getters of `PowerControl` are total). -/
def update_power_control (env : Env E) (mutate : PowerControl → PowerControl) (s : DevSt E) :
    DevSt E × Except (DErr E) Unit :=
  match mutate_power_control env mutate s with
  | (s1, Except.error e) => (s1, Except.error e)
  | (s1, Except.ok power) =>
    ({ s1 with config := { s1.config with
        power_mode := power.mode
        hpf_disable := if power.hpf_disable then HpfDisable.Disabled else HpfDisable.Enabled
        lpf_disable := if power.lpf_disable then LpfDisable.Disabled else LpfDisable.Enabled
        filter_settle := power.filter_settle
        instant_on_threshold := power.instant_on_threshold
        i2c_hsm_en := if power.i2c_high_speed_enable then I2cHsmEn.Enabled
          else I2cHsmEn.Disabled } }, Except.ok ())

/-- The field mutation applied by `apply_timing_config`: set every `TIMING`
field from the configuration. -/
def fullTimingMutation (c : Config) (timing : Timing) : Timing :=
  (((timing.set_odr c.odr).set_wake_up_rate c.wakeup_rate).set_ext_clk
    c.ext_clk).set_ext_sync c.ext_sync

/-- `Adxl372::apply_timing_config` (`device.rs`): program every `TIMING` field
from the supplied configuration. -/
def apply_timing_config (env : Env E) (c : Config) (s : DevSt E) :
    DevSt E × Except (DErr E) Unit :=
  update_timing_config env (fullTimingMutation c) s

/-- The field mutation applied by `apply_measurement_config`. -/
def fullMeasureMutation (c : Config) (measure : Measure) : Measure :=
  ((((measure.set_bandwidth c.bandwidth).set_low_noise
    c.low_noise).set_link_loop_mode c.linkloop).set_autosleep
    (c.autosleep = AutoSleep.Enabled)).set_user_or_disable
    (c.user_or_disable = UserOrDisable.Disabled)

/-- `Adxl372::apply_measurement_config` (`device.rs`). -/
def apply_measurement_config (env : Env E) (c : Config) (s : DevSt E) :
    DevSt E × Except (DErr E) Unit :=
  update_measure_config env (fullMeasureMutation c) s

/-- The field mutation applied by `apply_power_control_config`. -/
def fullPowerMutation (c : Config) (power : PowerControl) : PowerControl :=
  (((((power.set_mode c.power_mode).set_hpf_disable
    (c.hpf_disable = HpfDisable.Disabled)).set_lpf_disable
    (c.lpf_disable = LpfDisable.Disabled)).set_instant_on_threshold
    c.instant_on_threshold).set_filter_settle
    c.filter_settle).set_i2c_high_speed_enable (c.i2c_hsm_en = I2cHsmEn.Enabled)

/-- `Adxl372::apply_power_control_config` (`device.rs`). -/
def apply_power_control_config (env : Env E) (c : Config) (s : DevSt E) :
    DevSt E × Except (DErr E) Unit :=
  update_power_control env (fullPowerMutation c) s

/-- `Adxl372::configure` (`device.rs`): validate up front, run the three
read-modify-write cycles in the fixed order timing, measurement,
power-control, then replace the cached configuration with the caller's value.
The filter-settle wait on entering measurement mode is a pure delay with no
bus traffic and is not modelled further. -/
def configure (env : Env E) (c : Config) (s : DevSt E) :
    DevSt E × Except (DErr E) Unit :=
  match c.validate with
  | Except.error _ => (s, Except.error DErr.invalidConfig)
  | Except.ok _ =>
    match apply_timing_config env c s with
    | (s1, Except.error e) => (s1, Except.error e)
    | (s1, Except.ok _) =>
      match apply_measurement_config env c s1 with
      | (s2, Except.error e) => (s2, Except.error e)
      | (s2, Except.ok _) =>
        match apply_power_control_config env c s2 with
        | (s3, Except.error e) => (s3, Except.error e)
        | (s3, Except.ok _) => ({ s3 with config := c }, Except.ok ())

/-- The field mutation applied by `configure_timing`: only the supplied
fields are set, in the source's order. -/
def partialTimingMutation (odr : Option OutputDataRate)
    (wakeup_rate : Option WakeUpRate) (ext_clk : Option ExtClk)
    (ext_sync : Option ExtSync) (timing : Timing) : Timing :=
  let timing := match odr with
    | some v => timing.set_odr v
    | none => timing
  let timing := match wakeup_rate with
    | some v => timing.set_wake_up_rate v
    | none => timing
  let timing := match ext_clk with
    | some v => timing.set_ext_clk v
    | none => timing
  match ext_sync with
  | some v => timing.set_ext_sync v
  | none => timing

/-- `Adxl372::configure_timing` (`device.rs`): partial `TIMING` update. -/
def configure_timing (env : Env E) (odr : Option OutputDataRate)
    (wakeup_rate : Option WakeUpRate) (ext_clk : Option ExtClk)
    (ext_sync : Option ExtSync) (s : DevSt E) : DevSt E × Except (DErr E) Unit :=
  update_timing_config env (partialTimingMutation odr wakeup_rate ext_clk ext_sync) s

/-- The field mutation applied by `configure_measurement`. -/
def partialMeasureMutation (user_or_disable : Option UserOrDisable)
    (autosleep : Option AutoSleep) (linkloop : Option LinkLoopMode)
    (low_noise : Option LowNoise) (bandwidth : Option Bandwidth)
    (measure : Measure) : Measure :=
  let measure := match linkloop with
    | some v => measure.set_link_loop_mode v
    | none => measure
  let measure := match low_noise with
    | some v => measure.set_low_noise v
    | none => measure
  let measure := match bandwidth with
    | some v => measure.set_bandwidth v
    | none => measure
  let measure := match user_or_disable with
    | some v => measure.set_user_or_disable (v = UserOrDisable.Disabled)
    | none => measure
  match autosleep with
  | some v => measure.set_autosleep (v = AutoSleep.Enabled)
  | none => measure

/-- `Adxl372::configure_measurement` (`device.rs`): partial `MEASURE` update. -/
def configure_measurement (env : Env E) (user_or_disable : Option UserOrDisable)
    (autosleep : Option AutoSleep) (linkloop : Option LinkLoopMode)
    (low_noise : Option LowNoise) (bandwidth : Option Bandwidth)
    (s : DevSt E) : DevSt E × Except (DErr E) Unit :=
  update_measure_config env
    (partialMeasureMutation user_or_disable autosleep linkloop low_noise bandwidth) s

/-- The field mutation applied by `configure_power_ctl`. -/
def partialPowerMutation (i2c_hsm_en : Option I2cHsmEn)
    (instant_on_threshold : Option InstantOnThreshold)
    (filter_settle : Option SettleFilter) (lpf_disable : Option LpfDisable)
    (hpf_disable : Option HpfDisable) (mode : Option PowerMode)
    (power : PowerControl) : PowerControl :=
  let power := match i2c_hsm_en with
    | some v => power.set_i2c_high_speed_enable (v = I2cHsmEn.Enabled)
    | none => power
  let power := match instant_on_threshold with
    | some v => power.set_instant_on_threshold v
    | none => power
  let power := match filter_settle with
    | some v => power.set_filter_settle v
    | none => power
  let power := match lpf_disable with
    | some v => power.set_lpf_disable (v = LpfDisable.Disabled)
    | none => power
  let power := match hpf_disable with
    | some v => power.set_hpf_disable (v = HpfDisable.Disabled)
    | none => power
  match mode with
  | some v => power.set_mode v
  | none => power

/-- `Adxl372::configure_power_ctl` (`device.rs`): partial `POWER_CTL` update. -/
def configure_power_ctl (env : Env E) (i2c_hsm_en : Option I2cHsmEn)
    (instant_on_threshold : Option InstantOnThreshold)
    (filter_settle : Option SettleFilter) (lpf_disable : Option LpfDisable)
    (hpf_disable : Option HpfDisable) (mode : Option PowerMode)
    (s : DevSt E) : DevSt E × Except (DErr E) Unit :=
  update_power_control env
    (partialPowerMutation i2c_hsm_en instant_on_threshold filter_settle
      lpf_disable hpf_disable mode) s

/-- `SELF_TEST_THRESHOLD_LSB` from `self_test.rs`. -/
def SELF_TEST_THRESHOLD_LSB : Int := 5

/-- `SELF_TEST_TIMEOUT_MS` from `self_test.rs`. -/
def SELF_TEST_TIMEOUT_MS : Nat := 500

/-- `SELF_TEST_SAMPLE_PERIOD_NS` from `self_test.rs` (2.5 ms at 400 Hz). -/
def SELF_TEST_SAMPLE_PERIOD_NS : Nat := 2500000

/-- `SELF_TEST_SAMPLES_PER_WINDOW` from `self_test.rs`. -/
def SELF_TEST_SAMPLES_PER_WINDOW : Nat := 20

/-- The sampling-loop timeout budget in nanoseconds. -/
def SELF_TEST_TIMEOUT_NS : Nat := SELF_TEST_TIMEOUT_MS * 1000000

/-- Rust `i16::saturating_add` on values represented as `Int`. -/
def satAdd16 (a b : Int) : Int :=
  max (-32768) (min 32767 (a + b))

/-- Rust `u16::saturating_add(1)` on values represented as `Nat`. -/
def satSucc16 (n : Nat) : Nat :=
  min (n + 1) 65535

/-- Rust `u32::saturating_add` on values represented as `Nat`. -/
def satAdd32 (a b : Nat) : Nat :=
  min (a + b) 4294967295

/-- Two's-complement wrap-around into the `i16` range (release-mode Rust
overflow semantics for `i16` subtraction). -/
def i16_wrap (x : Int) : Int :=
  (x + 32768) % 65536 - 32768

/-- Rust `i16::abs` with release-mode wrap semantics (`(-32768).abs()` wraps
back to `-32768`). -/
def i16_abs (x : Int) : Int :=
  i16_wrap (if x < 0 then -x else x)

/-- `SelfTestReport` from `self_test.rs`. -/
structure SelfTestReport where
  passed : Bool
  baseline_avg_z : Int
  stimulated_avg_z : Int
  delta_z_lsb : Int
  samples_per_window : Nat
  user_flag : Bool
  timed_out : Bool
deriving DecidableEq

/-- `SelfTestWindowStats` from `self_test.rs`. -/
structure SelfTestWindowStats where
  baseline_avg : Int
  baseline_samples : Nat
  stimulated_avg : Int
  stimulated_samples : Nat
  final_reg : SelfTest
  timed_out : Bool
deriving DecidableEq

/-- `update_self_test_register` (`self_test.rs`): read `SELF_TEST`, apply the
mutation, write back only when the byte changed. -/
def update_self_test_register (env : Env E) (mutate : SelfTest → SelfTest) (s : DevSt E) :
    DevSt E × Except (DErr E) Unit :=
  match busRead env s REG_SELF_TEST with
  | (s1, Except.error e) => (s1, Except.error e)
  | (s1, Except.ok current) =>
    let reg := mutate (SelfTest.fromByte current)
    let updated := reg.toByte
    if updated ≠ current then busWrite env s1 REG_SELF_TEST updated
    else (s1, Except.ok ())

/-- `trigger_self_test` (`self_test.rs`): set the `ST` bit. -/
def trigger_self_test (env : Env E) (s : DevSt E) : DevSt E × Except (DErr E) Unit :=
  update_self_test_register env (fun reg => reg.set_st true) s

/-- `clear_self_test_trigger` (`self_test.rs`): clear the `ST` bit. -/
def clear_self_test_trigger (env : Env E) (s : DevSt E) : DevSt E × Except (DErr E) Unit :=
  update_self_test_register env (fun reg => reg.set_st false) s

/-- `configure_power_control_for_self_test` (`self_test.rs`): enable the
low-pass filter, force measurement mode and the 370 ms filter settle, writing
back only when the byte changed. -/
def configure_power_control_for_self_test (env : Env E) (s : DevSt E) :
    DevSt E × Except (DErr E) Unit :=
  match busRead env s REG_POWER_CTL with
  | (s1, Except.error e) => (s1, Except.error e)
  | (s1, Except.ok current) =>
    let reg := (((PowerControl.fromByte current).set_lpf_disable
      false).set_mode PowerMode.Measure).set_filter_settle SettleFilter.Ms370
    let updated := reg.toByte
    if updated ≠ current then busWrite env s1 REG_POWER_CTL updated
    else (s1, Except.ok ())

/-- `read_self_test_register` (`self_test.rs`). -/
def read_self_test_register (env : Env E) (s : DevSt E) :
    DevSt E × Except (DErr E) SelfTest :=
  match busRead env s REG_SELF_TEST with
  | (s1, Except.error e) => (s1, Except.error e)
  | (s1, Except.ok value) => (s1, Except.ok (SelfTest.fromByte value))

/-- Mutable local state of the sampling loop of `collect_self_test_windows`. -/
structure LoopSt where
  baseline_sum : Int
  baseline_count : Nat
  rolling_samples : List Int
  rolling_sum : Int
  rolling_count : Nat
  rolling_index : Nat
  elapsed_ns : Nat
  last_reg : SelfTest
deriving DecidableEq

/-- The post-loop computation of `collect_self_test_windows`: window averages
via truncating `i16` division, and the final timeout flag (also set when the
loop exited without the hardware `ST_DONE` flag). -/
def finalizeWindows (timedOut : Bool) (l : LoopSt) : SelfTestWindowStats :=
  let baseline_divisor := toSigned16 l.baseline_count
  let baseline_avg :=
    if 0 < baseline_divisor then Int.tdiv l.baseline_sum baseline_divisor else 0
  let stimulated_divisor := toSigned16 l.rolling_count
  let stimulated_avg :=
    if 0 < stimulated_divisor then Int.tdiv l.rolling_sum stimulated_divisor else 0
  { baseline_avg := baseline_avg
    baseline_samples := l.baseline_count
    stimulated_avg := stimulated_avg
    stimulated_samples := l.rolling_count
    final_reg := l.last_reg
    timed_out := timedOut || !l.last_reg.st_done }

/-- One-shot accumulation of a sample into the loop state: the capped
baseline running sum, the 20-entry ring buffer with eviction, and the
elapsed-time bump by the fixed per-sample delay. -/
def accumulateSample (l : LoopSt) (z : Int) : LoopSt :=
  let l :=
    if l.baseline_count < SELF_TEST_SAMPLES_PER_WINDOW then
      { l with baseline_sum := satAdd16 l.baseline_sum z
               baseline_count := satSucc16 l.baseline_count }
    else l
  let l :=
    if l.rolling_count = SELF_TEST_SAMPLES_PER_WINDOW then
      let removed := l.rolling_samples.getD l.rolling_index 0
      { l with rolling_sum := satAdd16 l.rolling_sum (-removed) }
    else { l with rolling_count := satSucc16 l.rolling_count }
  let l := { l with
    rolling_samples := l.rolling_samples.set l.rolling_index z
    rolling_sum := satAdd16 l.rolling_sum z
    rolling_index := (l.rolling_index + 1) % SELF_TEST_SAMPLES_PER_WINDOW }
  { l with elapsed_ns := satAdd32 l.elapsed_ns SELF_TEST_SAMPLE_PERIOD_NS }

/-- The sampling loop of `collect_self_test_windows`, embedded with a fuel
parameter. Each iteration checks the timeout budget, reads `SELF_TEST`
(stopping when `ST_DONE` is set), reads one Z sample and accumulates it.
Fuel exhaustion takes the timeout exit; `collect_loop_fuel_stable` shows the
fuel passed by `collect_self_test_windows` is beyond the point where this
matters. -/
def collect_loop (env : Env E) : Nat → LoopSt → DevSt E →
    DevSt E × Except (DErr E) SelfTestWindowStats
  | 0, l, s => (s, Except.ok (finalizeWindows true l))
  | fuel + 1, l, s =>
    if SELF_TEST_TIMEOUT_NS ≤ l.elapsed_ns then
      (s, Except.ok (finalizeWindows true l))
    else
      match read_self_test_register env s with
      | (s1, Except.error e) => (s1, Except.error e)
      | (s1, Except.ok reg) =>
        let l1 := { l with last_reg := reg }
        if reg.st_done then (s1, Except.ok (finalizeWindows false l1))
        else
          match read_z_raw env s1 with
          | (s2, Except.error e) => (s2, Except.error e)
          | (s2, Except.ok z) => collect_loop env fuel (accumulateSample l1 z) s2

/-- Initial loop state of `collect_self_test_windows`, given the result of
the initial `SELF_TEST` read. -/
def initLoopSt (reg : SelfTest) : LoopSt :=
  { baseline_sum := 0
    baseline_count := 0
    rolling_samples := List.replicate SELF_TEST_SAMPLES_PER_WINDOW 0
    rolling_sum := 0
    rolling_count := 0
    rolling_index := 0
    elapsed_ns := 0
    last_reg := reg }

/-- Fuel sufficient for the sampling loop: the per-sample delay is 2.5 ms and
the budget 500 ms, so the timeout exit is taken after at most 200 samples. -/
def COLLECT_FUEL : Nat := 201

/-- `collect_self_test_windows` (`self_test.rs`): initial `SELF_TEST` read,
then the sampling loop. -/
def collect_self_test_windows (env : Env E) (s : DevSt E) :
    DevSt E × Except (DErr E) SelfTestWindowStats :=
  match read_self_test_register env s with
  | (s1, Except.error e) => (s1, Except.error e)
  | (s1, Except.ok reg) => collect_loop env COLLECT_FUEL (initLoopSt reg) s1

/-- `execute_self_test_sequence` (`self_test.rs`): clear the trigger, guard
delay, arm, sample, disarm, then compute the report. The `i16` subtraction
producing the delta and the `i16::abs` use release-mode wrap semantics. -/
def execute_self_test_sequence (env : Env E) (s : DevSt E) :
    DevSt E × Except (DErr E) SelfTestReport :=
  match clear_self_test_trigger env s with
  | (s1, Except.error e) => (s1, Except.error e)
  | (s1, Except.ok _) =>
    match trigger_self_test env s1 with
    | (s2, Except.error e) => (s2, Except.error e)
    | (s2, Except.ok _) =>
      match collect_self_test_windows env s2 with
      | (s3, Except.error e) => (s3, Except.error e)
      | (s3, Except.ok window_stats) =>
        match clear_self_test_trigger env s3 with
        | (s4, Except.error e) => (s4, Except.error e)
        | (s4, Except.ok _) =>
          let baseline_avg := window_stats.baseline_avg
          let stimulated_avg := window_stats.stimulated_avg
          let delta := i16_wrap (stimulated_avg - baseline_avg)
          let user_flag := window_stats.final_reg.user_st
          let displacement_ok := SELF_TEST_THRESHOLD_LSB ≤ i16_abs delta
          let passed := !window_stats.timed_out && user_flag && displacement_ok
          (s4, Except.ok
            { passed := passed
              baseline_avg_z := baseline_avg
              stimulated_avg_z := stimulated_avg
              delta_z_lsb := delta
              samples_per_window :=
                min window_stats.baseline_samples window_stats.stimulated_samples
              user_flag := user_flag
              timed_out := window_stats.timed_out })

/-- `run_self_test` (`self_test.rs`): entry reset, power-control setup,
settle delay, the sampling sequence, then an exit reset. On a sequence error
the exit reset is attempted best-effort (its own error discarded) and the
original error propagates; errors of the entry reset or of the power-control
setup propagate immediately. -/
def run_self_test (env : Env E) (s : DevSt E) :
    DevSt E × Except (DErr E) SelfTestReport :=
  match reset env s with
  | (s1, Except.error e) => (s1, Except.error e)
  | (s1, Except.ok _) =>
    match configure_power_control_for_self_test env s1 with
    | (s2, Except.error e) => (s2, Except.error e)
    | (s2, Except.ok _) =>
      match execute_self_test_sequence env s2 with
      | (s3, Except.ok report) =>
        match reset env s3 with
        | (s4, Except.error e) => (s4, Except.error e)
        | (s4, Except.ok _) => (s4, Except.ok report)
      | (s3, Except.error err) =>
        let s4 := (reset env s3).1
        (s4, Except.error err)

/-- The register byte carried by one trace event for register `addr`: the
value written, or the byte read back (for a successful transaction). -/
def eventRegByte (addr : Nat) (ev : BusEvent E) : Option Nat :=
  match ev.req, ev.resp with
  | BusReq.writeReg a v, Except.ok _ => if a = addr then some (v % 256) else none
  | BusReq.readReg a, Except.ok bs => if a = addr then some (bs.headD 0 % 256) else none
  | _, _ => none

/-- The byte last written to (or, when no write was needed, last read from)
register `addr`, extracted from the newest-first trace. -/
def lastRegByte (addr : Nat) : List (BusEvent E) → Option Nat
  | [] => none
  | ev :: rest =>
    match eventRegByte addr ev with
    | some b => some b
    | none => lastRegByte addr rest

/-- Number of register writes (attempted or successful) in a trace. -/
def writeCount (events : List (BusEvent E)) : Nat :=
  events.countP fun ev =>
    match ev.req with
    | BusReq.writeReg _ _ => true
    | _ => false

/-- Number of soft-reset attempts (writes of `RESET_COMMAND` to `RESET`,
successful or not) in a trace. -/
def resetWriteCount (events : List (BusEvent E)) : Nat :=
  events.countP fun ev =>
    match ev.req with
    | BusReq.writeReg a v => a = REG_RESET && v = RESET_COMMAND
    | _ => false

/-- Number of Z-axis sample reads (2-byte bursts at `ZDATA_H`) in a trace. -/
def zReadCount (events : List (BusEvent E)) : Nat :=
  events.countP fun ev =>
    match ev.req with
    | BusReq.readMany a n => a = REG_ZDATA_H && n = 2
    | _ => false

/-- The cached timing fields of `c` agree with the decode of byte `b`. -/
def timingCacheMatches (c : Config) (b : Nat) : Prop :=
  (Timing.fromByte b).odr = some c.odr ∧
  (Timing.fromByte b).wake_up_rate = c.wakeup_rate ∧
  (Timing.fromByte b).ext_clk = c.ext_clk ∧
  (Timing.fromByte b).ext_sync = c.ext_sync

/-- The cached measurement fields of `c` agree with the decode of byte `b`
(bool fields correspond through the enum translation used by the cache
refresh in `update_measure_config`). -/
def measureCacheMatches (c : Config) (b : Nat) : Prop :=
  (Measure.fromByte b).bandwidth = some c.bandwidth ∧
  (Measure.fromByte b).low_noise = c.low_noise ∧
  (Measure.fromByte b).link_loop_mode = some c.linkloop ∧
  c.autosleep = (if (Measure.fromByte b).autosleep then AutoSleep.Enabled
    else AutoSleep.Disabled) ∧
  c.user_or_disable = (if (Measure.fromByte b).user_or_disable then
    UserOrDisable.Disabled else UserOrDisable.Enabled)

/-- The cached power-control fields of `c` agree with the decode of byte `b`. -/
def powerCacheMatches (c : Config) (b : Nat) : Prop :=
  c.power_mode = (PowerControl.fromByte b).mode ∧
  c.hpf_disable = (if (PowerControl.fromByte b).hpf_disable then
    HpfDisable.Disabled else HpfDisable.Enabled) ∧
  c.lpf_disable = (if (PowerControl.fromByte b).lpf_disable then
    LpfDisable.Disabled else LpfDisable.Enabled) ∧
  c.filter_settle = (PowerControl.fromByte b).filter_settle ∧
  c.instant_on_threshold = (PowerControl.fromByte b).instant_on_threshold ∧
  c.i2c_hsm_en = (if (PowerControl.fromByte b).i2c_high_speed_enable then
    I2cHsmEn.Enabled else I2cHsmEn.Disabled)

/-- C8: `Config::validate` fails exactly on `bandwidth.max_hz() * 2 >
odr.hz()`, with error `NyquistViolation`, and its result depends only on the
`odr` and `bandwidth` fields: two configurations agreeing on those two fields
validate identically. -/
theorem validate_iff_nyquist :
    ∀ c : Config,
      (c.validate = Except.error ConfigError.NyquistViolation ↔
        c.bandwidth.max_hz * 2 > c.odr.hz) ∧
      (c.validate ≠ Except.error ConfigError.NyquistViolation →
        c.validate = Except.ok ()) ∧
      ∀ c' : Config, c.odr = c'.odr → c.bandwidth = c'.bandwidth →
        c.validate = c'.validate := by
  intro c
  refine ⟨?_, ?_, ?_⟩
  · unfold Config.validate
    split
    · next h => simp [h]
    · next h => simp [h]
  · unfold Config.validate
    split <;> simp
  · intro c' h1 h2
    unfold Config.validate
    rw [h1, h2]

/-- Witness for C8: instantiation at two concrete configurations agreeing on
`odr` and `bandwidth` (the default, and the default with measurement mode). -/
theorem validate_iff_nyquist_witness :
    (Config.default.validate = Except.error ConfigError.NyquistViolation ↔
      Config.default.bandwidth.max_hz * 2 > Config.default.odr.hz) ∧
    Config.default.validate =
      ({ Config.default with power_mode := PowerMode.Measure } : Config).validate :=
  ⟨(validate_iff_nyquist Config.default).1,
    (validate_iff_nyquist Config.default).2.2
      { Config.default with power_mode := PowerMode.Measure } rfl rfl⟩

/-- C7: for every byte `b`, re-encoding the decode of `b` reproduces `b`
exactly, for each of the five codec register kinds; reserved/skip chunks are
part of the decomposition, so they are preserved by the round trip. -/
theorem encode_decode_roundtrip :
    ∀ b, b < 256 →
      Timing.toByte (Timing.fromByte b) = b ∧
      Measure.toByte (Measure.fromByte b) = b ∧
      PowerControl.toByte (PowerControl.fromByte b) = b ∧
      SelfTest.toByte (SelfTest.fromByte b) = b ∧
      Status.toByte (Status.fromByte b) = b := by
  intro b hb
  refine ⟨?_, ?_, ?_, ?_, ?_⟩ <;>
    simp only [Timing.fromByte, Timing.toByte, Measure.fromByte, Measure.toByte,
      PowerControl.fromByte, PowerControl.toByte, SelfTest.fromByte,
      SelfTest.toByte, Status.fromByte, Status.toByte] <;>
    omega

/-- Witness for C7: the round trip at the concrete byte `0xA7`. -/
theorem encode_decode_roundtrip_witness :
    Timing.toByte (Timing.fromByte 167) = 167 ∧
    Measure.toByte (Measure.fromByte 167) = 167 ∧
    PowerControl.toByte (PowerControl.fromByte 167) = 167 ∧
    SelfTest.toByte (SelfTest.fromByte 167) = 167 ∧
    Status.toByte (Status.fromByte 167) = 167 :=
  encode_decode_roundtrip 167 (by decide)

/-- Counterexample to C2: decoding is not failure-free. Decoding byte `0xA0`
as `TIMING` and reading the ODR field fails (the Rust getter panics), because
ODR pattern `0b101` carries no symbolic value; likewise bandwidth pattern 5
and link/loop pattern 3 in `MEASURE`. -/
theorem decode_field_read_fails :
    (Timing.fromByte 160).odr = none ∧
    (Measure.fromByte 5).bandwidth = none ∧
    (Measure.fromByte 48).link_loop_mode = none := by
  decide

/-- C2 as amended: `from_bytes` itself is total over all 256 bytes (it is a
plain bit-range split), and every field read is total except the three
enumerated fields whose value spaces do not fill their bit width: reading ODR
or bandwidth succeeds exactly for patterns 0..4 (of 8), and link/loop exactly
for patterns 0..2 (of 4); each in-range pattern and each symbolic value
correspond one to one. -/
theorem decode_totality_amended :
    (∀ b, b < 256 →
      (((Timing.fromByte b).odr).isSome ↔ b / 32 % 8 ≤ 4) ∧
      (((Measure.fromByte b).bandwidth).isSome ↔ b % 8 ≤ 4) ∧
      (((Measure.fromByte b).link_loop_mode).isSome ↔ b / 16 % 4 ≤ 2)) ∧
    (∀ v : OutputDataRate, OutputDataRate.fromBits v.toBits = some v) ∧
    (∀ v : Bandwidth, Bandwidth.fromBits v.toBits = some v) ∧
    (∀ v : LinkLoopMode, LinkLoopMode.fromBits v.toBits = some v) := by
  refine ⟨?_, ?_, ?_, ?_⟩
  · decide
  · intro v
    cases v <;> rfl
  · intro v
    cases v <;> rfl
  · intro v
    cases v <;> rfl

/-- Witness for C2's amended theorem: instantiation at byte `0xA0`, where the
ODR read fails while the bandwidth and link/loop reads succeed. -/
theorem decode_totality_amended_witness :
    (((Timing.fromByte 160).odr).isSome ↔ 160 / 32 % 8 ≤ 4) ∧
    (((Measure.fromByte 160).bandwidth).isSome ↔ 160 % 8 ≤ 4) ∧
    (((Measure.fromByte 160).link_loop_mode).isSome ↔ 160 / 16 % 4 ≤ 2) :=
  decode_totality_amended.1 160 (by decide)

/-- Initial driver state: default configuration, empty trace. -/
def devSt0 : DevSt Unit :=
  { config := Config.default, events := [] }

/-- Synthetic environment for the errata self-test scenario of the spec: every
transaction succeeds, Z-axis reads yield 0 for the first 20 samples and 10
afterwards, and the `SELF_TEST` register reads `0x06` (`ST_DONE` and
`USER_ST` set) once 40 samples have been taken, `0x00` before. -/
def env40 : Env Unit :=
  { run := fun hist req =>
      match req with
      | BusReq.readReg a =>
        if a = REG_SELF_TEST then
          if zReadCount hist < 40 then Except.ok [0] else Except.ok [6]
        else Except.ok [0]
      | BusReq.readMany a n =>
        if a = REG_ZDATA_H ∧ n = 2 then
          if zReadCount hist < 20 then Except.ok [0, 0] else Except.ok [0, 160]
        else Except.ok [0, 0]
      | BusReq.writeReg _ _ => Except.ok [] }

/-- C4: on the 40-sample synthetic stream (first 20 samples 0, last 20
samples 10, completion and user flags set after the 40th sample, no timeout)
the self-test reports baseline 0, stimulated 10, delta 10, 20 samples per
window, passed, and no timeout: the baseline window froze on the earliest 20
samples while the ring buffer slid to the latest 20. -/
theorem self_test_forty_sample_report :
    (run_self_test env40 devSt0).2 = Except.ok
      { passed := true
        baseline_avg_z := 0
        stimulated_avg_z := 10
        delta_z_lsb := 10
        samples_per_window := 20
        user_flag := true
        timed_out := false } := by
  decide

/-- Synthetic environment whose Z-axis stream is 20 samples of 2047 LSB (the
largest positive 12-bit reading) followed by 20 samples of 0, with completion
flagged after the 40th sample. The true baseline window sum, 40940, exceeds
the `i16` range. -/
def env2047 : Env Unit :=
  { run := fun hist req =>
      match req with
      | BusReq.readReg a =>
        if a = REG_SELF_TEST then
          if zReadCount hist < 40 then Except.ok [0] else Except.ok [6]
        else Except.ok [0]
      | BusReq.readMany a n =>
        if a = REG_ZDATA_H ∧ n = 2 then
          if zReadCount hist < 20 then Except.ok [127, 240] else Except.ok [0, 0]
        else Except.ok [0, 0]
      | BusReq.writeReg _ _ => Except.ok [] }

/-- C10: the self-test window sums use `i16` saturating addition, so (i) every
accumulated sum stays in `[-32768, 32767]`; (ii) on the stream of 20 samples
of 2047 LSB followed by 20 samples of 0 — whose true baseline sum 40940
overflows that range — the reported baseline average is 1638, not the true
mean 2047, the stimulated average is -408 instead of the true 0, and the
delta is -2046 instead of the true -2047; and (iii) in general no window of
20 samples whose true sum exceeds the clamp range can have its reported
average (a truncating division of the clamped sum) agree with the true
arithmetic mean. -/
theorem window_sum_saturation :
    (∀ a b : Int, -32768 ≤ satAdd16 a b ∧ satAdd16 a b ≤ 32767) ∧
    ((run_self_test env2047 devSt0).2 = Except.ok
      { passed := true
        baseline_avg_z := 1638
        stimulated_avg_z := -408
        delta_z_lsb := -2046
        samples_per_window := 20
        user_flag := true
        timed_out := false } ∧
      (32767 : Int) < 20 * 2047 ∧
      (1638 : Int) ≠ Int.tdiv (20 * 2047) 20 ∧
      (-2046 : Int) ≠ Int.tdiv (20 * 2047) 20 - 0) ∧
    (∀ S rep : Int, 32767 < S → -32768 ≤ rep → rep ≤ 32767 →
      20 * Int.tdiv rep 20 ≠ S) := by
  refine ⟨?_, ?_, ?_⟩
  · intro a b
    unfold satAdd16
    omega
  · refine ⟨by decide, by decide, by decide, by decide⟩
  · intro S rep hS h1 h2
    have habs : (rep.tdiv 20).natAbs = rep.natAbs / 20 := by
      have h := Int.natAbs_tdiv rep 20
      simp only [Int.natAbs_ofNat] at h
      rw [h]
      rfl
    omega

/-- Witness for C10: the general divergence fact applied at the concrete
clamped sum 32767 and true sum 40940. -/
theorem window_sum_saturation_witness :
    20 * Int.tdiv 32767 20 ≠ (40940 : Int) :=
  window_sum_saturation.2.2 40940 32767 (by decide) (by decide) (by decide)

/-- Environment answering every read with byte `0x00` and accepting every
write (an idle bus). -/
def envZero : Env Unit :=
  { run := fun _ req =>
      match req with
      | BusReq.readReg _ => Except.ok [0]
      | BusReq.readMany _ n => Except.ok (List.replicate n 0)
      | BusReq.writeReg _ _ => Except.ok [] }

/-- Driver state whose cached bandwidth is 3200 Hz (with the matching 6400 Hz
ODR cached), empty trace. -/
def sBw3200 : DevSt Unit :=
  { config := { Config.default with
      bandwidth := Bandwidth.Bw3200Hz, odr := OutputDataRate.Od6400Hz }
    events := [] }

/-- Counterexample to C3: `configure_timing` lowering the ODR to 400 Hz while
the cached bandwidth is 3200 Hz fails with the validation error
`InvalidConfig`, yet one bus transaction — the `TIMING` register read — has
already been performed, so the operation does not fail before all I/O. -/
theorem invalid_config_after_read :
    (configure_timing envZero (some OutputDataRate.Od400Hz) none none none
        sBw3200).2 = Except.error DErr.invalidConfig ∧
    (configure_timing envZero (some OutputDataRate.Od400Hz) none none none
        sBw3200).1.events =
      [{ req := BusReq.readReg REG_TIMING, resp := Except.ok [0] }] := by
  refine ⟨by decide, by decide⟩

/-- Environment in which reading `POWER_CTL` fails with a transport error and
every other transaction succeeds with zero bytes. -/
def envPowerFail : Env Unit :=
  { run := fun _ req =>
      match req with
      | BusReq.readReg a =>
        if a = REG_POWER_CTL then Except.error () else Except.ok [0]
      | BusReq.readMany _ n => Except.ok (List.replicate n 0)
      | BusReq.writeReg _ _ => Except.ok [] }

/-- Counterexample to C6: when the bus fails during the power-control setup —
a phase strictly between the entry and exit resets — `run_self_test`
propagates the error without attempting the exit soft reset: exactly one
reset write (the entry one) is on the trace. -/
theorem self_test_setup_failure_skips_exit_reset :
    (run_self_test envPowerFail devSt0).2 = Except.error (DErr.interface ()) ∧
    resetWriteCount (run_self_test envPowerFail devSt0).1.events = 1 := by
  refine ⟨by decide, by decide⟩

/-- An event for a different register (or any burst read) carries no byte for
`addr`, so `lastRegByte` skips it. -/
theorem lastRegByte_cons_none {addr : Nat} {ev : BusEvent E} {es : List (BusEvent E)}
    (h : eventRegByte addr ev = none) :
    lastRegByte addr (ev :: es) = lastRegByte addr es := by
  conv_lhs => rw [lastRegByte]
  rw [h]

/-- `lastRegByte` returns the byte of the newest matching event. -/
theorem lastRegByte_cons_some {addr : Nat} {ev : BusEvent E} {es : List (BusEvent E)}
    {b : Nat} (h : eventRegByte addr ev = some b) :
    lastRegByte addr (ev :: es) = some b := by
  conv_lhs => rw [lastRegByte]
  rw [h]

/-- Characterization of a successful `update_timing_config` run: the read
byte `current` exists, the mutated value decodes to a valid ODR that passes
the Nyquist recheck, the cache holds exactly the decoded fields, the newest
`TIMING` byte on the trace is the re-encoded register value, and bytes of
other registers on the trace are untouched. -/
theorem update_timing_ok (env : Env E) (m : Timing → Timing) (s s' : DevSt E)
    (h : update_timing_config env m s = (s', Except.ok ())) :
    ∃ current, current < 256 ∧
      ∃ v, (m (Timing.fromByte current)).odr = some v ∧
      ¬ s.config.bandwidth.max_hz * 2 > v.hz ∧
      s'.config =
        { s.config with
            odr := v,
            wakeup_rate := (m (Timing.fromByte current)).wake_up_rate,
            ext_clk := (m (Timing.fromByte current)).ext_clk,
            ext_sync := (m (Timing.fromByte current)).ext_sync } ∧
      lastRegByte REG_TIMING s'.events =
        some ((m (Timing.fromByte current)).toByte % 256) ∧
      ∀ a, a ≠ REG_TIMING → lastRegByte a s'.events = lastRegByte a s.events := by
  unfold update_timing_config busRead at h
  split at h
  · simp at h
  · next s1 cur heq =>
    split at heq
    · simp at heq
    · next bs hrun =>
      simp only [Prod.mk.injEq, Except.ok.injEq] at heq
      obtain ⟨hs1, hcur⟩ := heq
      subst hs1
      subst hcur
      dsimp only at h
      split at h
      · simp at h
      · next v hv =>
        split at h
        · simp at h
        · next hnyq =>
          by_cases hb :
              (m (Timing.fromByte (bs.headD 0 % 256))).toByte ≠ bs.headD 0 % 256
          · rw [if_pos hb] at h
            unfold busWrite at h
            split at h
            · simp at h
            · next ws hws =>
              split at hws
              · simp at hws
              · next wbs hwrun =>
                simp only [Prod.mk.injEq, Except.ok.injEq] at hws
                obtain ⟨hs2, -⟩ := hws
                subst hs2
                simp only [Prod.mk.injEq] at h
                obtain ⟨hs', -⟩ := h
                subst hs'
                refine ⟨bs.headD 0 % 256, by omega, v, hv, hnyq, by rfl, ?_, ?_⟩
                · simp [lastRegByte, eventRegByte]
                · intro a ha
                  simp [lastRegByte, eventRegByte, Ne.symm ha]
          · rw [if_neg hb] at h
            simp only [Prod.mk.injEq] at h
            obtain ⟨hs', -⟩ := h
            subst hs'
            simp only [not_not] at hb
            refine ⟨bs.headD 0 % 256, by omega, v, hv, hnyq, by rfl, ?_, ?_⟩
            · simp only [lastRegByte, eventRegByte]
              rw [hb]
              simp [Nat.mod_mod_of_dvd]
            · intro a ha
              simp [lastRegByte, eventRegByte, Ne.symm ha]

/-- Characterization of `update_timing_config` failing with `InvalidConfig`:
the cache is untouched and exactly one transaction — the `TIMING` read — was
added to the trace (in particular, no write was issued). -/
theorem update_timing_invalid (env : Env E) (m : Timing → Timing) (s s' : DevSt E)
    (h : update_timing_config env m s = (s', Except.error (DErr.invalidConfig))) :
    s'.config = s.config ∧
    ∃ bs, s'.events =
      { req := BusReq.readReg REG_TIMING, resp := Except.ok bs } :: s.events := by
  unfold update_timing_config busRead at h
  split at h
  · next s1 e heq =>
    simp only [Prod.mk.injEq, Except.error.injEq] at h
    obtain ⟨hs1, he⟩ := h
    subst hs1
    subst he
    split at heq <;> simp at heq
  · next s1 cur heq =>
    split at heq
    · simp at heq
    · next bs hrun =>
      simp only [Prod.mk.injEq, Except.ok.injEq] at heq
      obtain ⟨hs1, hcur⟩ := heq
      subst hs1
      subst hcur
      dsimp only at h
      split at h
      · simp at h
      · next v hv =>
        split at h
        · next hnyq =>
          simp only [Prod.mk.injEq] at h
          obtain ⟨hs', -⟩ := h
          subst hs'
          exact ⟨rfl, bs, rfl⟩
        · next hnyq =>
          by_cases hb :
              (m (Timing.fromByte (bs.headD 0 % 256))).toByte ≠ bs.headD 0 % 256
          · rw [if_pos hb] at h
            unfold busWrite at h
            split at h
            · next s2 e2 heq2 =>
              simp only [Prod.mk.injEq, Except.error.injEq] at h
              obtain ⟨-, he2⟩ := h
              subst he2
              split at heq2 <;> simp at heq2
            · simp at h
          · rw [if_neg hb] at h
            simp at h

/-- Characterization of a successful `update_measure_config` run, analogous
to `update_timing_ok`: valid bandwidth and link/loop decodes, Nyquist recheck
against the cached ODR passed, cache refreshed from the decoded fields, the
newest `MEASURE` byte is the re-encoded value, other registers untouched. -/
theorem update_measure_ok (env : Env E) (m : Measure → Measure) (s s' : DevSt E)
    (h : update_measure_config env m s = (s', Except.ok ())) :
    ∃ current, current < 256 ∧
      ∃ bw, (m (Measure.fromByte current)).bandwidth = some bw ∧
      ¬ bw.max_hz * 2 > s.config.odr.hz ∧
      ∃ ll, (m (Measure.fromByte current)).link_loop_mode = some ll ∧
      s'.config =
        { s.config with
            bandwidth := bw,
            low_noise := (m (Measure.fromByte current)).low_noise,
            linkloop := ll,
            autosleep := if (m (Measure.fromByte current)).autosleep then
              AutoSleep.Enabled else AutoSleep.Disabled,
            user_or_disable := if (m (Measure.fromByte current)).user_or_disable
              then UserOrDisable.Disabled else UserOrDisable.Enabled } ∧
      lastRegByte REG_MEASURE s'.events =
        some ((m (Measure.fromByte current)).toByte % 256) ∧
      ∀ a, a ≠ REG_MEASURE → lastRegByte a s'.events = lastRegByte a s.events := by
  unfold update_measure_config busRead at h
  split at h
  · simp at h
  · next s1 cur heq =>
    split at heq
    · simp at heq
    · next bs hrun =>
      simp only [Prod.mk.injEq, Except.ok.injEq] at heq
      obtain ⟨hs1, hcur⟩ := heq
      subst hs1
      subst hcur
      dsimp only at h
      split at h
      · simp at h
      · next bw hbw =>
        split at h
        · simp at h
        · next hnyq =>
          by_cases hb :
              (m (Measure.fromByte (bs.headD 0 % 256))).toByte ≠ bs.headD 0 % 256
          · rw [if_pos hb] at h
            unfold busWrite at h
            split at h
            · simp at h
            · next ws hws =>
              split at hws
              · simp at hws
              · next wbs hwrun =>
                simp only [Prod.mk.injEq, Except.ok.injEq] at hws
                obtain ⟨hs2, -⟩ := hws
                subst hs2
                split at h
                · simp at h
                · next ll hll =>
                  simp only [Prod.mk.injEq] at h
                  obtain ⟨hs', -⟩ := h
                  subst hs'
                  refine ⟨bs.headD 0 % 256, by omega, bw, hbw, hnyq, ll, hll,
                    by rfl, ?_, ?_⟩
                  · simp [lastRegByte, eventRegByte]
                  · intro a ha
                    simp [lastRegByte, eventRegByte, Ne.symm ha]
          · rw [if_neg hb] at h
            dsimp only at h
            split at h
            · simp at h
            · next ll hll =>
              simp only [Prod.mk.injEq] at h
              obtain ⟨hs', -⟩ := h
              subst hs'
              simp only [not_not] at hb
              refine ⟨bs.headD 0 % 256, by omega, bw, hbw, hnyq, ll, hll,
                by rfl, ?_, ?_⟩
              · simp only [lastRegByte, eventRegByte]
                rw [hb]
                simp [Nat.mod_mod_of_dvd]
              · intro a ha
                simp [lastRegByte, eventRegByte, Ne.symm ha]

/-- Characterization of `update_measure_config` failing with `InvalidConfig`:
the cache is untouched, exactly the `MEASURE` read was added to the trace,
and the prospective bandwidth indeed violates Nyquist against the cached ODR. -/
theorem update_measure_invalid (env : Env E) (m : Measure → Measure) (s s' : DevSt E)
    (h : update_measure_config env m s = (s', Except.error (DErr.invalidConfig))) :
    s'.config = s.config ∧
    (∃ bs, s'.events =
      { req := BusReq.readReg REG_MEASURE, resp := Except.ok bs } :: s.events) ∧
    ∃ current bw, current < 256 ∧
      (m (Measure.fromByte current)).bandwidth = some bw ∧
      bw.max_hz * 2 > s.config.odr.hz := by
  unfold update_measure_config busRead at h
  split at h
  · next s1 e heq =>
    simp only [Prod.mk.injEq, Except.error.injEq] at h
    obtain ⟨hs1, he⟩ := h
    subst hs1
    subst he
    split at heq <;> simp at heq
  · next s1 cur heq =>
    split at heq
    · simp at heq
    · next bs hrun =>
      simp only [Prod.mk.injEq, Except.ok.injEq] at heq
      obtain ⟨hs1, hcur⟩ := heq
      subst hs1
      subst hcur
      dsimp only at h
      split at h
      · simp at h
      · next bw hbw =>
        split at h
        · next hnyq =>
          simp only [Prod.mk.injEq] at h
          obtain ⟨hs', -⟩ := h
          subst hs'
          exact ⟨rfl, ⟨bs, rfl⟩, bs.headD 0 % 256, bw, by omega, hbw, by omega⟩
        · next hnyq =>
          by_cases hb :
              (m (Measure.fromByte (bs.headD 0 % 256))).toByte ≠ bs.headD 0 % 256
          · rw [if_pos hb] at h
            unfold busWrite at h
            split at h
            · next s2 e2 heq2 =>
              simp only [Prod.mk.injEq, Except.error.injEq] at h
              obtain ⟨-, he2⟩ := h
              subst he2
              split at heq2 <;> simp at heq2
            · next ws hws =>
              split at h <;> simp at h
          · rw [if_neg hb] at h
            dsimp only at h
            split at h <;> simp at h

/-- Characterization of a successful `update_power_control` run: the cache is
refreshed from the decoded mutated value, the newest `POWER_CTL` byte is the
re-encoded value, other registers untouched. -/
theorem update_power_ok (env : Env E) (m : PowerControl → PowerControl) (s s' : DevSt E)
    (h : update_power_control env m s = (s', Except.ok ())) :
    ∃ current, current < 256 ∧
      s'.config =
        { s.config with
            power_mode := (m (PowerControl.fromByte current)).mode,
            hpf_disable := if (m (PowerControl.fromByte current)).hpf_disable
              then HpfDisable.Disabled else HpfDisable.Enabled,
            lpf_disable := if (m (PowerControl.fromByte current)).lpf_disable
              then LpfDisable.Disabled else LpfDisable.Enabled,
            filter_settle := (m (PowerControl.fromByte current)).filter_settle,
            instant_on_threshold :=
              (m (PowerControl.fromByte current)).instant_on_threshold,
            i2c_hsm_en := if (m (PowerControl.fromByte current)).i2c_high_speed_enable
              then I2cHsmEn.Enabled else I2cHsmEn.Disabled } ∧
      lastRegByte REG_POWER_CTL s'.events =
        some ((m (PowerControl.fromByte current)).toByte % 256) ∧
      ∀ a, a ≠ REG_POWER_CTL → lastRegByte a s'.events = lastRegByte a s.events := by
  unfold update_power_control mutate_power_control busRead at h
  split at h
  · simp at h
  · next s1 power heq =>
    split at heq
    · simp at heq
    · next s0 cur heq0 =>
      split at heq0
      · simp at heq0
      · next bs hrun =>
        simp only [Prod.mk.injEq, Except.ok.injEq] at heq0
        obtain ⟨hs0, hcur⟩ := heq0
        subst hs0
        subst hcur
        dsimp only at heq
        by_cases hb :
            (m (PowerControl.fromByte (bs.headD 0 % 256))).toByte ≠ bs.headD 0 % 256
        · rw [if_pos hb] at heq
          unfold busWrite at heq
          split at heq
          · simp at heq
          · next wbs hwrun =>
            simp only [Prod.mk.injEq, Except.ok.injEq] at heq
            obtain ⟨hs1, hpw⟩ := heq
            subst hs1
            subst hpw
            simp only [Prod.mk.injEq] at h
            obtain ⟨hs', -⟩ := h
            subst hs'
            split at hwrun
            · simp at hwrun
            · simp only [Prod.mk.injEq, Except.ok.injEq] at hwrun
              obtain ⟨hs2, -⟩ := hwrun
              subst hs2
              refine ⟨bs.headD 0 % 256, by omega, by rfl, ?_, ?_⟩
              · simp [lastRegByte, eventRegByte]
              · intro a ha
                simp [lastRegByte, eventRegByte, Ne.symm ha]
        · rw [if_neg hb] at heq
          simp only [Prod.mk.injEq, Except.ok.injEq] at heq
          obtain ⟨hs1, hpw⟩ := heq
          subst hs1
          subst hpw
          simp only [Prod.mk.injEq] at h
          obtain ⟨hs', -⟩ := h
          subst hs'
          simp only [not_not] at hb
          refine ⟨bs.headD 0 % 256, by omega, by rfl, ?_, ?_⟩
          · simp only [lastRegByte, eventRegByte]
            rw [hb]
            simp [Nat.mod_mod_of_dvd]
          · intro a ha
            simp [lastRegByte, eventRegByte, Ne.symm ha]

/-- `update_power_control` never fails with `InvalidConfig`: it performs no
validation (its errors are transport errors only). -/
theorem update_power_not_invalid (env : Env E) (m : PowerControl → PowerControl)
    (s s' : DevSt E)
    (h : update_power_control env m s = (s', Except.error (DErr.invalidConfig))) :
    False := by
  unfold update_power_control mutate_power_control busRead at h
  split at h
  · next s1 e heq =>
    simp only [Prod.mk.injEq, Except.error.injEq] at h
    obtain ⟨-, he⟩ := h
    subst he
    split at heq
    · next s1b eb heq2 =>
      simp only [Prod.mk.injEq, Except.error.injEq] at heq
      obtain ⟨-, he2⟩ := heq
      subst he2
      split at heq2 <;> simp at heq2
    · next s1b cur heq2 =>
      dsimp only at heq
      by_cases hb : (m (PowerControl.fromByte cur)).toByte ≠ cur
      · rw [if_pos hb] at heq
        unfold busWrite at heq
        split at heq
        · next s2 e2 heq3 =>
          simp only [Prod.mk.injEq, Except.error.injEq] at heq
          obtain ⟨-, he3⟩ := heq
          subst he3
          split at heq3 <;> simp at heq3
        · simp at heq
      · rw [if_neg hb] at heq
        simp at heq
  · simp at h

/-- A read event adds no register write to the trace count. -/
theorem writeCount_cons_read (a : Nat) (r : Except E (List Nat))
    (es : List (BusEvent E)) :
    writeCount ({ req := BusReq.readReg a, resp := r } :: es) = writeCount es := by
  simp [writeCount, List.countP_cons]

/-- A configuration that validates has a Nyquist-compatible bandwidth. -/
theorem validate_ok_not_nyquist (c : Config) (h : c.validate = Except.ok ()) :
    ¬ c.bandwidth.max_hz * 2 > c.odr.hz := by
  unfold Config.validate at h
  split at h
  · simp at h
  · next hn => exact hn

/-- `apply_timing_config`'s mutation always programs the caller's ODR. -/
theorem fullTimingMutation_odr (c : Config) (t : Timing) :
    (fullTimingMutation c t).odr = some c.odr := by
  show OutputDataRate.fromBits c.odr.toBits = some c.odr
  generalize c.odr = v
  cases v <;> rfl

/-- `apply_measurement_config`'s mutation always programs the caller's
bandwidth. -/
theorem fullMeasureMutation_bandwidth (c : Config) (m : Measure) :
    (fullMeasureMutation c m).bandwidth = some c.bandwidth := by
  show Bandwidth.fromBits c.bandwidth.toBits = some c.bandwidth
  generalize c.bandwidth = v
  cases v <;> rfl

/-- C3 as amended: a `NyquistViolation` from the up-front `validate` in
`configure` is raised before any I/O; but the `InvalidConfig` validation
error of the read-modify-write cycles (`configure` reaches it through
`update_timing_config`; the partial updates `configure_timing` and
`configure_measurement` reach it directly) is raised after the cycle's
register read. In every case the failing operation has issued no register
write and the cached `Config` is unchanged. -/
theorem invalid_config_preserves_cache (E : Type) :
    (∀ (env : Env E) (c : Config) (s : DevSt E),
      c.validate = Except.error ConfigError.NyquistViolation →
      configure env c s = (s, Except.error DErr.invalidConfig)) ∧
    (∀ (env : Env E) (c : Config) (s s' : DevSt E),
      configure env c s = (s', Except.error DErr.invalidConfig) →
      s'.config = s.config ∧ writeCount s'.events = writeCount s.events) ∧
    (∀ (env : Env E) (odr : Option OutputDataRate) (wr : Option WakeUpRate)
      (clk : Option ExtClk) (sync : Option ExtSync) (s s' : DevSt E),
      configure_timing env odr wr clk sync s =
        (s', Except.error DErr.invalidConfig) →
      s'.config = s.config ∧ writeCount s'.events = writeCount s.events) ∧
    (∀ (env : Env E) (uo : Option UserOrDisable) (asleep : Option AutoSleep)
      (ll : Option LinkLoopMode) (ln : Option LowNoise) (bw : Option Bandwidth)
      (s s' : DevSt E),
      configure_measurement env uo asleep ll ln bw s =
        (s', Except.error DErr.invalidConfig) →
      s'.config = s.config ∧ writeCount s'.events = writeCount s.events) := by
  refine ⟨?_, ?_, ?_, ?_⟩
  · intro env c s hv
    unfold configure
    rw [hv]
  · intro env c s s' h
    unfold configure at h
    split at h
    · simp only [Prod.mk.injEq] at h
      obtain ⟨hs, -⟩ := h
      subst hs
      exact ⟨rfl, rfl⟩
    · next hvok =>
      split at h
      · next s1 e heq =>
        simp only [Prod.mk.injEq, Except.error.injEq] at h
        obtain ⟨hs', he⟩ := h
        subst hs'
        subst he
        unfold apply_timing_config at heq
        obtain ⟨hcfg, bs, hev⟩ := update_timing_invalid env _ s _ heq
        refine ⟨hcfg, ?_⟩
        rw [hev, writeCount_cons_read]
      · next s1 u1 heqt =>
        split at h
        · next s2 e heqm =>
          simp only [Prod.mk.injEq, Except.error.injEq] at h
          obtain ⟨hs', he⟩ := h
          subst hs'
          subst he
          cases u1
          unfold apply_timing_config at heqt
          obtain ⟨cur, -, v, hvodr, -, hcfg1, -, -⟩ :=
            update_timing_ok env _ s s1 heqt
          unfold apply_measurement_config at heqm
          obtain ⟨-, -, cur2, bw, -, hbw, hgt⟩ :=
            update_measure_invalid env _ s1 _ heqm
          rw [fullMeasureMutation_bandwidth] at hbw
          rw [fullTimingMutation_odr] at hvodr
          injection hbw with hbw
          injection hvodr with hvodr
          subst hbw
          subst hvodr
          rw [hcfg1] at hgt
          exact absurd hgt (by simpa using validate_ok_not_nyquist c hvok)
        · next s2 u2 heqm =>
          split at h
          · next s3 e heqp =>
            simp only [Prod.mk.injEq, Except.error.injEq] at h
            obtain ⟨hs', he⟩ := h
            subst hs'
            subst he
            unfold apply_power_control_config at heqp
            exact absurd heqp (fun hh => update_power_not_invalid env _ s2 _ hh)
          · simp at h
  · intro env odr wr clk sync s s' h
    unfold configure_timing at h
    obtain ⟨hcfg, bs, hev⟩ := update_timing_invalid env _ s s' h
    refine ⟨hcfg, ?_⟩
    rw [hev, writeCount_cons_read]
  · intro env uo asleep ll ln bw s s' h
    unfold configure_measurement at h
    obtain ⟨hcfg, ⟨bs, hev⟩, -⟩ := update_measure_invalid env _ s s' h
    refine ⟨hcfg, ?_⟩
    rw [hev, writeCount_cons_read]

/-- Witness for C3's amended theorem: the partial ODR update on the cached
3200 Hz bandwidth fails with `InvalidConfig`, leaving the cache and the
write count (zero) unchanged even though a read was performed. -/
theorem invalid_config_preserves_cache_witness :
    (configure_timing envZero (some OutputDataRate.Od400Hz) none none none
        sBw3200).1.config = sBw3200.config ∧
    writeCount (configure_timing envZero (some OutputDataRate.Od400Hz) none none
        none sBw3200).1.events = writeCount sBw3200.events :=
  (invalid_config_preserves_cache Unit).2.2.1 envZero (some OutputDataRate.Od400Hz)
    none none none sBw3200 _ (by decide)

/-- Every `OutputDataRate` encoding fits in 3 bits. -/
theorem OutputDataRate_toBits_lt (v : OutputDataRate) : v.toBits < 8 := by
  cases v <;> decide

/-- Every `Bandwidth` encoding fits in 3 bits. -/
theorem Bandwidth_toBits_lt (v : Bandwidth) : v.toBits < 8 := by
  cases v <;> decide

/-- Every `WakeUpRate` encoding fits in 3 bits. -/
theorem WakeUpRate_toBits_lt (v : WakeUpRate) : v.toBits < 8 := by
  cases v <;> decide

/-- Every `ExtClk` encoding fits in 1 bit. -/
theorem ExtClk_toBits_lt (v : ExtClk) : v.toBits < 2 := by
  cases v <;> decide

/-- Every `ExtSync` encoding fits in 1 bit. -/
theorem ExtSync_toBits_lt (v : ExtSync) : v.toBits < 2 := by
  cases v <;> decide

/-- Every `LinkLoopMode` encoding fits in 2 bits. -/
theorem LinkLoopMode_toBits_lt (v : LinkLoopMode) : v.toBits < 4 := by
  cases v <;> decide

/-- Every `PowerMode` encoding fits in 2 bits. -/
theorem PowerMode_toBits_lt (v : PowerMode) : v.toBits < 4 := by
  cases v <;> decide

/-- Every `LowNoise` encoding fits in 1 bit. -/
theorem LowNoise_toBits_lt (v : LowNoise) : v.toBits < 2 := by
  cases v <;> decide

/-- Every `SettleFilter` encoding fits in 1 bit. -/
theorem SettleFilter_toBits_lt (v : SettleFilter) : v.toBits < 2 := by
  cases v <;> decide

/-- Every `InstantOnThreshold` encoding fits in 1 bit. -/
theorem InstantOnThreshold_toBits_lt (v : InstantOnThreshold) : v.toBits < 2 := by
  cases v <;> decide

/-- Decode after encode is the identity for `WakeUpRate`. -/
theorem WakeUpRate_ofBits_toBits (v : WakeUpRate) : WakeUpRate.ofBits v.toBits = v := by
  cases v <;> rfl

/-- Decode after encode is the identity for `ExtClk`. -/
theorem ExtClk_ofBits_toBits (v : ExtClk) : ExtClk.ofBits v.toBits = v := by
  cases v <;> rfl

/-- Decode after encode is the identity for `ExtSync`. -/
theorem ExtSync_ofBits_toBits (v : ExtSync) : ExtSync.ofBits v.toBits = v := by
  cases v <;> rfl

/-- Decode after encode is the identity for `LowNoise`. -/
theorem LowNoise_ofBits_toBits (v : LowNoise) : LowNoise.ofBits v.toBits = v := by
  cases v <;> rfl

/-- Decode after encode is the identity for `PowerMode`. -/
theorem PowerMode_ofBits_toBits (v : PowerMode) : PowerMode.ofBits v.toBits = v := by
  cases v <;> rfl

/-- Decode after encode is the identity for `SettleFilter`. -/
theorem SettleFilter_ofBits_toBits (v : SettleFilter) :
    SettleFilter.ofBits v.toBits = v := by
  cases v <;> rfl

/-- Decode after encode is the identity for `InstantOnThreshold`. -/
theorem InstantOnThreshold_ofBits_toBits (v : InstantOnThreshold) :
    InstantOnThreshold.ofBits v.toBits = v := by
  cases v <;> rfl

/-- Decode after encode is the identity for `OutputDataRate`. -/
theorem OutputDataRate_fromBits_toBits (v : OutputDataRate) :
    OutputDataRate.fromBits v.toBits = some v := by
  cases v <;> rfl

/-- Decode after encode is the identity for `Bandwidth`. -/
theorem Bandwidth_fromBits_toBits (v : Bandwidth) :
    Bandwidth.fromBits v.toBits = some v := by
  cases v <;> rfl

/-- Decode after encode is the identity for `LinkLoopMode`. -/
theorem LinkLoopMode_fromBits_toBits (v : LinkLoopMode) :
    LinkLoopMode.fromBits v.toBits = some v := by
  cases v <;> rfl

/-- The byte split of `TIMING` produces in-range chunks. -/
theorem Timing_wf_fromByte (b : Nat) : (Timing.fromByte b).wf := by
  unfold Timing.fromByte Timing.wf
  dsimp only
  refine ⟨?_, ?_, ?_, ?_⟩ <;> omega

/-- Value-level round trip for well-formed `TIMING` values: decoding the
(masked) re-encoded byte restores the value. -/
theorem Timing_fromByte_toByte (t : Timing) (h : t.wf) :
    Timing.fromByte (t.toByte % 256) = t := by
  obtain ⟨a, b, c, d⟩ := t
  obtain ⟨h1, h2, h3, h4⟩ := h
  dsimp only at h1 h2 h3 h4
  unfold Timing.fromByte Timing.toByte
  dsimp only
  simp only [Timing.mk.injEq]
  refine ⟨?_, ?_, ?_, ?_⟩ <;> omega

/-- The byte split of `MEASURE` produces in-range chunks. -/
theorem Measure_wf_fromByte (b : Nat) : (Measure.fromByte b).wf := by
  unfold Measure.fromByte Measure.wf
  dsimp only
  refine ⟨?_, ?_, ?_, ?_, ?_⟩ <;> omega

/-- Value-level round trip for well-formed `MEASURE` values. -/
theorem Measure_fromByte_toByte (m : Measure) (h : m.wf) :
    Measure.fromByte (m.toByte % 256) = m := by
  obtain ⟨a, b, c, d, e⟩ := m
  obtain ⟨h1, h2, h3, h4, h5⟩ := h
  dsimp only at h1 h2 h3 h4 h5
  unfold Measure.fromByte Measure.toByte
  dsimp only
  simp only [Measure.mk.injEq]
  refine ⟨?_, ?_, ?_, ?_, ?_⟩ <;> omega

/-- The byte split of `POWER_CTL` produces in-range chunks. -/
theorem PowerControl_wf_fromByte (b : Nat) : (PowerControl.fromByte b).wf := by
  unfold PowerControl.fromByte PowerControl.wf
  dsimp only
  refine ⟨?_, ?_, ?_, ?_, ?_, ?_, ?_⟩ <;> omega

/-- Value-level round trip for well-formed `POWER_CTL` values. -/
theorem PowerControl_fromByte_toByte (p : PowerControl) (h : p.wf) :
    PowerControl.fromByte (p.toByte % 256) = p := by
  obtain ⟨a, b, c, d, e, f, g⟩ := p
  obtain ⟨h1, h2, h3, h4, h5, h6, h7⟩ := h
  dsimp only at h1 h2 h3 h4 h5 h6 h7
  unfold PowerControl.fromByte PowerControl.toByte
  dsimp only
  simp only [PowerControl.mk.injEq]
  refine ⟨?_, ?_, ?_, ?_, ?_, ?_, ?_⟩ <;> omega

/-- A boolean bit written as `if _ then 1 else 0` fits in 1 bit. -/
theorem boolBit_lt (p : Prop) [Decidable p] : (if p then 1 else 0) < 2 := by
  split <;> decide

/-- `apply_timing_config`'s mutation yields in-range chunks. -/
theorem fullTimingMutation_wf (c : Config) (t : Timing) :
    (fullTimingMutation c t).wf :=
  ⟨ExtSync_toBits_lt _, ExtClk_toBits_lt _, WakeUpRate_toBits_lt _,
    OutputDataRate_toBits_lt _⟩

/-- `apply_measurement_config`'s mutation yields in-range chunks. -/
theorem fullMeasureMutation_wf (c : Config) (m : Measure) :
    (fullMeasureMutation c m).wf :=
  ⟨Bandwidth_toBits_lt _, LowNoise_toBits_lt _, LinkLoopMode_toBits_lt _,
    boolBit_lt _, boolBit_lt _⟩

/-- `apply_power_control_config`'s mutation yields in-range chunks (the
reserved skip bit is untouched, so its bound comes from the input). -/
theorem fullPowerMutation_wf (c : Config) (p : PowerControl) (h : p.wf) :
    (fullPowerMutation c p).wf :=
  ⟨PowerMode_toBits_lt _, boolBit_lt _, boolBit_lt _, SettleFilter_toBits_lt _,
    InstantOnThreshold_toBits_lt _, h.2.2.2.2.2.1, boolBit_lt _⟩

/-- `configure_timing`'s mutation yields in-range chunks. -/
theorem partialTimingMutation_wf (o : Option OutputDataRate) (w : Option WakeUpRate)
    (k : Option ExtClk) (y : Option ExtSync) (t : Timing) (h : t.wf) :
    (partialTimingMutation o w k y t).wf := by
  obtain ⟨h1, h2, h3, h4⟩ := h
  rcases o with - | vo <;> rcases w with - | vw <;> rcases k with - | vk <;>
    rcases y with - | vy <;>
    exact ⟨by first | exact h1 | exact ExtSync_toBits_lt vy,
      by first | exact h2 | exact ExtClk_toBits_lt vk,
      by first | exact h3 | exact WakeUpRate_toBits_lt vw,
      by first | exact h4 | exact OutputDataRate_toBits_lt vo⟩

set_option maxHeartbeats 2000000 in
/-- `configure_measurement`'s mutation yields in-range chunks. -/
theorem partialMeasureMutation_wf (uo : Option UserOrDisable)
    (asleep : Option AutoSleep) (ll : Option LinkLoopMode) (ln : Option LowNoise)
    (bw : Option Bandwidth) (m : Measure) (h : m.wf) :
    (partialMeasureMutation uo asleep ll ln bw m).wf := by
  obtain ⟨h1, h2, h3, h4, h5⟩ := h
  rcases uo with - | vuo <;> rcases asleep with - | vas <;> rcases ll with - | vll <;>
    rcases ln with - | vln <;> rcases bw with - | vbw <;>
    exact ⟨by first | exact h1 | exact Bandwidth_toBits_lt vbw,
      by first | exact h2 | exact LowNoise_toBits_lt vln,
      by first | exact h3 | exact LinkLoopMode_toBits_lt vll,
      by first | exact h4 | exact boolBit_lt _,
      by first | exact h5 | exact boolBit_lt _⟩

set_option maxHeartbeats 4000000 in
/-- `configure_power_ctl`'s mutation yields in-range chunks. -/
theorem partialPowerMutation_wf (i2c : Option I2cHsmEn)
    (th : Option InstantOnThreshold) (se : Option SettleFilter)
    (lp : Option LpfDisable) (hp : Option HpfDisable) (md : Option PowerMode)
    (p : PowerControl) (h : p.wf) :
    (partialPowerMutation i2c th se lp hp md p).wf := by
  obtain ⟨h1, h2, h3, h4, h5, h6, h7⟩ := h
  rcases i2c with - | v1 <;> rcases th with - | v2 <;> rcases se with - | v3 <;>
    rcases lp with - | v4 <;> rcases hp with - | v5 <;> rcases md with - | v6 <;>
    exact ⟨by first | exact h1 | exact PowerMode_toBits_lt v6,
      by first | exact h2 | exact boolBit_lt _,
      by first | exact h3 | exact boolBit_lt _,
      by first | exact h4 | exact SettleFilter_toBits_lt v3,
      by first | exact h5 | exact InstantOnThreshold_toBits_lt v2,
      h6,
      by first | exact h7 | exact boolBit_lt _⟩

/-- C1: after every successful whole-configuration update (`configure`) and
every successful partial update (`configure_timing`, `configure_measurement`,
`configure_power_ctl`), each cached `Config` field belonging to a touched
register equals the corresponding field of the decode of the byte last
written to (or, when the write was suppressed, last read from) that
register: the cache agrees with the decoded hardware value. -/
theorem cache_matches_decoded (E : Type) :
    (∀ (env : Env E) (c : Config) (s s' : DevSt E),
      configure env c s = (s', Except.ok ()) →
      (∃ bt, lastRegByte REG_TIMING s'.events = some bt ∧
        timingCacheMatches s'.config bt) ∧
      (∃ bm, lastRegByte REG_MEASURE s'.events = some bm ∧
        measureCacheMatches s'.config bm) ∧
      (∃ bp, lastRegByte REG_POWER_CTL s'.events = some bp ∧
        powerCacheMatches s'.config bp)) ∧
    (∀ (env : Env E) (o : Option OutputDataRate) (w : Option WakeUpRate)
      (k : Option ExtClk) (y : Option ExtSync) (s s' : DevSt E),
      configure_timing env o w k y s = (s', Except.ok ()) →
      ∃ bt, lastRegByte REG_TIMING s'.events = some bt ∧
        timingCacheMatches s'.config bt) ∧
    (∀ (env : Env E) (uo : Option UserOrDisable) (asleep : Option AutoSleep)
      (ll : Option LinkLoopMode) (ln : Option LowNoise) (bw : Option Bandwidth)
      (s s' : DevSt E),
      configure_measurement env uo asleep ll ln bw s = (s', Except.ok ()) →
      ∃ bm, lastRegByte REG_MEASURE s'.events = some bm ∧
        measureCacheMatches s'.config bm) ∧
    (∀ (env : Env E) (i2c : Option I2cHsmEn) (th : Option InstantOnThreshold)
      (se : Option SettleFilter) (lp : Option LpfDisable)
      (hp : Option HpfDisable) (md : Option PowerMode) (s s' : DevSt E),
      configure_power_ctl env i2c th se lp hp md s = (s', Except.ok ()) →
      ∃ bp, lastRegByte REG_POWER_CTL s'.events = some bp ∧
        powerCacheMatches s'.config bp) := by
  refine ⟨?_, ?_, ?_, ?_⟩
  · intro env c s s' h
    unfold configure at h
    split at h
    · simp at h
    · next hvok =>
      split at h
      · simp at h
      · next s1 u1 heqt =>
        split at h
        · simp at h
        · next s2 u2 heqm =>
          split at h
          · simp at h
          · next s3 u3 heqp =>
            simp only [Prod.mk.injEq] at h
            obtain ⟨hs', -⟩ := h
            subst hs'
            cases u1
            cases u2
            cases u3
            unfold apply_timing_config at heqt
            unfold apply_measurement_config at heqm
            unfold apply_power_control_config at heqp
            obtain ⟨curT, hcurT, v, hvT, -, hcfg1, hlastT, hpresT⟩ :=
              update_timing_ok env _ s s1 heqt
            obtain ⟨curM, hcurM, bw, hbwM, -, llv, hllM, hcfg2, hlastM, hpresM⟩ :=
              update_measure_ok env _ s1 s2 heqm
            obtain ⟨curP, hcurP, hcfg3, hlastP, hpresP⟩ :=
              update_power_ok env _ s2 s3 heqp
            have hrtT := Timing_fromByte_toByte _
              (fullTimingMutation_wf c (Timing.fromByte curT))
            have hrtM := Measure_fromByte_toByte _
              (fullMeasureMutation_wf c (Measure.fromByte curM))
            have hrtP := PowerControl_fromByte_toByte _
              (fullPowerMutation_wf c (PowerControl.fromByte curP)
                (PowerControl_wf_fromByte curP))
            refine ⟨⟨(fullTimingMutation c (Timing.fromByte curT)).toByte % 256,
                ?_, ?_⟩,
              ⟨(fullMeasureMutation c (Measure.fromByte curM)).toByte % 256,
                ?_, ?_⟩,
              ⟨(fullPowerMutation c (PowerControl.fromByte curP)).toByte % 256,
                ?_, ?_⟩⟩
            · show lastRegByte REG_TIMING s3.events = _
              rw [hpresP _ (by decide), hpresM _ (by decide)]
              exact hlastT
            · show timingCacheMatches c _
              unfold timingCacheMatches
              rw [hrtT]
              obtain ⟨codr, cwr, cck, ccs, cuo, cas, cll, cln, cbw, ci2, cth,
                cfs, clp, chp, cpm⟩ := c
              exact ⟨by cases codr <;> rfl, by cases cwr <;> rfl,
                by cases cck <;> rfl, by cases ccs <;> rfl⟩
            · show lastRegByte REG_MEASURE s3.events = _
              rw [hpresP _ (by decide)]
              exact hlastM
            · show measureCacheMatches c _
              unfold measureCacheMatches
              rw [hrtM]
              obtain ⟨codr, cwr, cck, ccs, cuo, cas, cll, cln, cbw, ci2, cth,
                cfs, clp, chp, cpm⟩ := c
              exact ⟨by cases cbw <;> rfl, by cases cln <;> rfl,
                by cases cll <;> rfl, by cases cas <;> rfl,
                by cases cuo <;> rfl⟩
            · show lastRegByte REG_POWER_CTL s3.events = _
              exact hlastP
            · show powerCacheMatches c _
              unfold powerCacheMatches
              rw [hrtP]
              obtain ⟨codr, cwr, cck, ccs, cuo, cas, cll, cln, cbw, ci2, cth,
                cfs, clp, chp, cpm⟩ := c
              exact ⟨by cases cpm <;> rfl, by cases chp <;> rfl,
                by cases clp <;> rfl, by cases cfs <;> rfl,
                by cases cth <;> rfl, by cases ci2 <;> rfl⟩
  · intro env o w k y s s' h
    unfold configure_timing at h
    obtain ⟨cur, hcur, v, hv, -, hcfg, hlast, -⟩ :=
      update_timing_ok env _ s s' h
    have hwf := partialTimingMutation_wf o w k y (Timing.fromByte cur)
      (Timing_wf_fromByte cur)
    have hrt := Timing_fromByte_toByte _ hwf
    refine ⟨_, hlast, ?_⟩
    unfold timingCacheMatches
    rw [hrt, hcfg]
    exact ⟨hv, rfl, rfl, rfl⟩
  · intro env uo asleep ll ln bw s s' h
    unfold configure_measurement at h
    obtain ⟨cur, hcur, bwv, hbw, -, llv, hll, hcfg, hlast, -⟩ :=
      update_measure_ok env _ s s' h
    have hwf := partialMeasureMutation_wf uo asleep ll ln bw
      (Measure.fromByte cur) (Measure_wf_fromByte cur)
    have hrt := Measure_fromByte_toByte _ hwf
    refine ⟨_, hlast, ?_⟩
    unfold measureCacheMatches
    rw [hrt, hcfg]
    exact ⟨hbw, rfl, hll, rfl, rfl⟩
  · intro env i2c th se lp hp md s s' h
    unfold configure_power_ctl at h
    obtain ⟨cur, hcur, hcfg, hlast, -⟩ :=
      update_power_ok env _ s s' h
    have hwf := partialPowerMutation_wf i2c th se lp hp md
      (PowerControl.fromByte cur) (PowerControl_wf_fromByte cur)
    have hrt := PowerControl_fromByte_toByte _ hwf
    refine ⟨_, hlast, ?_⟩
    unfold powerCacheMatches
    rw [hrt, hcfg]
    exact ⟨rfl, rfl, rfl, rfl, rfl, rfl⟩

/-- Witness for C1: concrete successful runs of `configure` (default
configuration) and of the three partial updates (no-op field selections) on
the idle bus, with the cache/decode agreement instantiated for each. -/
theorem cache_matches_decoded_witness :
    ((∃ bt, lastRegByte REG_TIMING
        (configure envZero Config.default devSt0).1.events = some bt ∧
      timingCacheMatches (configure envZero Config.default devSt0).1.config bt) ∧
     (∃ bm, lastRegByte REG_MEASURE
        (configure envZero Config.default devSt0).1.events = some bm ∧
      measureCacheMatches (configure envZero Config.default devSt0).1.config bm) ∧
     (∃ bp, lastRegByte REG_POWER_CTL
        (configure envZero Config.default devSt0).1.events = some bp ∧
      powerCacheMatches (configure envZero Config.default devSt0).1.config bp)) ∧
    (∃ bt, lastRegByte REG_TIMING
        (configure_timing envZero none none none none devSt0).1.events = some bt ∧
      timingCacheMatches
        (configure_timing envZero none none none none devSt0).1.config bt) ∧
    (∃ bm, lastRegByte REG_MEASURE
        (configure_measurement envZero none none none none none devSt0).1.events =
          some bm ∧
      measureCacheMatches
        (configure_measurement envZero none none none none none devSt0).1.config bm) ∧
    (∃ bp, lastRegByte REG_POWER_CTL
        (configure_power_ctl envZero none none none none none none
          devSt0).1.events = some bp ∧
      powerCacheMatches
        (configure_power_ctl envZero none none none none none none
          devSt0).1.config bp) :=
  ⟨(cache_matches_decoded Unit).1 envZero Config.default devSt0 _ (by decide),
   (cache_matches_decoded Unit).2.1 envZero none none none none devSt0 _ (by decide),
   (cache_matches_decoded Unit).2.2.1 envZero none none none none none devSt0 _
     (by decide),
   (cache_matches_decoded Unit).2.2.2 envZero none none none none none none devSt0 _
     (by decide)⟩

/-- Read events never count as reset writes. -/
theorem resetWriteCount_cons_read (a : Nat) (r : Except E (List Nat))
    (es : List (BusEvent E)) :
    resetWriteCount ({ req := BusReq.readReg a, resp := r } :: es) =
      resetWriteCount es := by
  simp [resetWriteCount, List.countP_cons]

/-- Burst-read events never count as reset writes. -/
theorem resetWriteCount_cons_readMany (a n : Nat) (r : Except E (List Nat))
    (es : List (BusEvent E)) :
    resetWriteCount ({ req := BusReq.readMany a n, resp := r } :: es) =
      resetWriteCount es := by
  simp [resetWriteCount, List.countP_cons]

/-- Writes to registers other than `RESET` never count as reset writes. -/
theorem resetWriteCount_cons_write_other (a v : Nat) (r : Except E (List Nat))
    (es : List (BusEvent E)) (h : a ≠ REG_RESET) :
    resetWriteCount ({ req := BusReq.writeReg a v, resp := r } :: es) =
      resetWriteCount es := by
  simp [resetWriteCount, List.countP_cons, h]

/-- A write of the reset command to `RESET` counts once, whether or not the
transport accepted it. -/
theorem resetWriteCount_cons_reset (r : Except E (List Nat))
    (es : List (BusEvent E)) :
    resetWriteCount
        ({ req := BusReq.writeReg REG_RESET RESET_COMMAND, resp := r } :: es) =
      resetWriteCount es + 1 := by
  simp [resetWriteCount, List.countP_cons]

/-- Single-register events never count as Z-axis sample reads. -/
theorem zReadCount_cons_read (a : Nat) (r : Except E (List Nat))
    (es : List (BusEvent E)) :
    zReadCount ({ req := BusReq.readReg a, resp := r } :: es) = zReadCount es := by
  simp [zReadCount, List.countP_cons]

/-- Register writes never count as Z-axis sample reads. -/
theorem zReadCount_cons_write (a v : Nat) (r : Except E (List Nat))
    (es : List (BusEvent E)) :
    zReadCount ({ req := BusReq.writeReg a v, resp := r } :: es) = zReadCount es := by
  simp [zReadCount, List.countP_cons]

/-- A 2-byte burst read at `ZDATA_H` counts as one Z-axis sample read. -/
theorem zReadCount_cons_z (r : Except E (List Nat)) (es : List (BusEvent E)) :
    zReadCount ({ req := BusReq.readMany REG_ZDATA_H 2, resp := r } :: es) =
      zReadCount es + 1 := by
  simp [zReadCount, List.countP_cons]

/-- `reset` adds exactly one reset-write attempt and no Z reads, in both
outcomes. -/
theorem reset_trace (env : Env E) (s : DevSt E) :
    resetWriteCount (reset env s).1.events = resetWriteCount s.events + 1 ∧
    zReadCount (reset env s).1.events = zReadCount s.events := by
  unfold reset busWrite
  rcases henv : env.run s.events (BusReq.writeReg REG_RESET RESET_COMMAND) with
    e | bs <;> dsimp only <;>
    exact ⟨resetWriteCount_cons_reset _ _, zReadCount_cons_write _ _ _ _⟩

/-- `update_self_test_register` touches only the `SELF_TEST` register: it
adds no reset writes and no Z reads, in every outcome. -/
theorem update_self_test_register_trace (env : Env E) (m : SelfTest → SelfTest)
    (s : DevSt E) :
    resetWriteCount (update_self_test_register env m s).1.events =
      resetWriteCount s.events ∧
    zReadCount (update_self_test_register env m s).1.events =
      zReadCount s.events := by
  unfold update_self_test_register busRead busWrite
  rcases henv : env.run s.events (BusReq.readReg REG_SELF_TEST) with e | bs <;>
    dsimp only
  · exact ⟨resetWriteCount_cons_read _ _ _, zReadCount_cons_read _ _ _⟩
  · split
    · split <;> dsimp only <;>
        exact ⟨by rw [resetWriteCount_cons_write_other _ _ _ _ (by decide),
            resetWriteCount_cons_read],
          by rw [zReadCount_cons_write, zReadCount_cons_read]⟩
    · exact ⟨resetWriteCount_cons_read _ _ _, zReadCount_cons_read _ _ _⟩

/-- `configure_power_control_for_self_test` touches only `POWER_CTL`. -/
theorem configure_power_self_test_trace (env : Env E) (s : DevSt E) :
    resetWriteCount (configure_power_control_for_self_test env s).1.events =
      resetWriteCount s.events ∧
    zReadCount (configure_power_control_for_self_test env s).1.events =
      zReadCount s.events := by
  unfold configure_power_control_for_self_test busRead busWrite
  rcases henv : env.run s.events (BusReq.readReg REG_POWER_CTL) with e | bs <;>
    dsimp only
  · exact ⟨resetWriteCount_cons_read _ _ _, zReadCount_cons_read _ _ _⟩
  · split
    · split <;> dsimp only <;>
        exact ⟨by rw [resetWriteCount_cons_write_other _ _ _ _ (by decide),
            resetWriteCount_cons_read],
          by rw [zReadCount_cons_write, zReadCount_cons_read]⟩
    · exact ⟨resetWriteCount_cons_read _ _ _, zReadCount_cons_read _ _ _⟩

/-- `read_self_test_register` adds one register read. -/
theorem read_self_test_register_trace (env : Env E) (s : DevSt E) :
    resetWriteCount (read_self_test_register env s).1.events =
      resetWriteCount s.events ∧
    zReadCount (read_self_test_register env s).1.events = zReadCount s.events := by
  unfold read_self_test_register busRead
  rcases henv : env.run s.events (BusReq.readReg REG_SELF_TEST) with e | bs <;>
    dsimp only <;>
    exact ⟨resetWriteCount_cons_read _ _ _, zReadCount_cons_read _ _ _⟩

/-- `read_z_raw` adds one Z-axis sample read and no reset writes. -/
theorem read_z_raw_trace (env : Env E) (s : DevSt E) :
    resetWriteCount (read_z_raw env s).1.events = resetWriteCount s.events ∧
    zReadCount (read_z_raw env s).1.events = zReadCount s.events + 1 := by
  unfold read_z_raw busRead2
  rcases henv : env.run s.events (BusReq.readMany REG_ZDATA_H 2) with e | bs <;>
    dsimp only <;>
    exact ⟨resetWriteCount_cons_readMany _ _ _ _, zReadCount_cons_z _ _⟩

/-- The sampling loop performs reads only: it never adds a reset write, for
any fuel, state and outcome. -/
theorem collect_loop_no_resets (env : Env E) :
    ∀ (fuel : Nat) (l : LoopSt) (s : DevSt E),
      resetWriteCount (collect_loop env fuel l s).1.events =
        resetWriteCount s.events := by
  intro fuel
  induction fuel with
  | zero => intro l s; rfl
  | succ n ih =>
    intro l s
    unfold collect_loop
    split
    · rfl
    · rcases hr : read_self_test_register env s with ⟨s1, r1⟩
      have hr1 := read_self_test_register_trace env s
      rw [hr] at hr1
      cases r1 with
      | error e => exact hr1.1
      | ok reg =>
        dsimp only
        split
        · exact hr1.1
        · rcases hz : read_z_raw env s1 with ⟨s2, r2⟩
          have hz1 := read_z_raw_trace env s1
          rw [hz] at hz1
          cases r2 with
          | error e =>
            dsimp only
            rw [hz1.1]
            exact hr1.1
          | ok z =>
            dsimp only
            rw [ih _ s2, hz1.1]
            exact hr1.1

/-- `collect_self_test_windows` never adds a reset write, in any outcome. -/
theorem collect_windows_no_resets (env : Env E) (s : DevSt E) :
    resetWriteCount (collect_self_test_windows env s).1.events =
      resetWriteCount s.events := by
  unfold collect_self_test_windows
  rcases hr : read_self_test_register env s with ⟨s1, r1⟩
  have t1 := read_self_test_register_trace env s
  rw [hr] at t1
  cases r1 with
  | error e => exact t1.1
  | ok reg =>
    dsimp only
    rw [collect_loop_no_resets]
    exact t1.1

/-- The arm/sample/disarm sequence never adds a reset write, in any outcome:
it touches only the `SELF_TEST` and axis-data registers. -/
theorem execute_self_test_trace (env : Env E) (s : DevSt E) :
    resetWriteCount (execute_self_test_sequence env s).1.events =
      resetWriteCount s.events := by
  unfold execute_self_test_sequence clear_self_test_trigger trigger_self_test
  rcases h1 : update_self_test_register env (fun reg => reg.set_st false) s with
    ⟨s1, r1⟩
  have t1 := update_self_test_register_trace env (fun reg => reg.set_st false) s
  rw [h1] at t1
  cases r1 with
  | error e => exact t1.1
  | ok u1 =>
    dsimp only
    rcases h2 : update_self_test_register env (fun reg => reg.set_st true) s1 with
      ⟨s2, r2⟩
    have t2 := update_self_test_register_trace env (fun reg => reg.set_st true) s1
    rw [h2] at t2
    cases r2 with
    | error e =>
      dsimp only
      rw [t2.1]
      exact t1.1
    | ok u2 =>
      dsimp only
      rcases h3 : collect_self_test_windows env s2 with ⟨s3, r3⟩
      have t3 := collect_windows_no_resets env s2
      rw [h3] at t3
      cases r3 with
      | error e =>
        dsimp only
        rw [t3]
        rw [t2.1]
        exact t1.1
      | ok stats =>
        dsimp only
        rcases h4 : update_self_test_register env (fun reg => reg.set_st false) s3
          with ⟨s4, r4⟩
        have t4 := update_self_test_register_trace env
          (fun reg => reg.set_st false) s3
        rw [h4] at t4
        cases r4 with
        | error e =>
          dsimp only
          rw [t4.1, t3, t2.1]
          exact t1.1
        | ok u4 =>
          dsimp only
          rw [t4.1, t3, t2.1]
          exact t1.1

/-- C6 as amended: a successful self-test run issues exactly two soft resets
(entry and exit). A bus failure inside the arm/sample/disarm sequence still
gets the best-effort exit reset, whose own outcome is discarded while the
original error propagates (two reset attempts on the trace). But a bus
failure during the power-control setup — which also lies between the two
resets — propagates immediately, with only the entry reset on the trace. -/
theorem self_test_reset_discipline (E : Type) :
    (∀ (env : Env E) (s s' : DevSt E) (r : SelfTestReport),
      run_self_test env s = (s', Except.ok r) →
      resetWriteCount s'.events = resetWriteCount s.events + 2) ∧
    (∀ (env : Env E) (s s1 s2 s3 : DevSt E) (e : DErr E),
      reset env s = (s1, Except.ok ()) →
      configure_power_control_for_self_test env s1 = (s2, Except.ok ()) →
      execute_self_test_sequence env s2 = (s3, Except.error e) →
      run_self_test env s = ((reset env s3).1, Except.error e) ∧
      resetWriteCount (reset env s3).1.events = resetWriteCount s.events + 2) ∧
    (∀ (env : Env E) (s s1 s2 : DevSt E) (e : DErr E),
      reset env s = (s1, Except.ok ()) →
      configure_power_control_for_self_test env s1 = (s2, Except.error e) →
      run_self_test env s = (s2, Except.error e) ∧
      resetWriteCount s2.events = resetWriteCount s.events + 1) := by
  refine ⟨?_, ?_, ?_⟩
  · intro env s s' r h
    unfold run_self_test at h
    split at h
    · simp at h
    · next s1 u1 h1 =>
      split at h
      · simp at h
      · next s2 u2 h2 =>
        split at h
        · next s3 rep h3 =>
          split at h
          · simp at h
          · next s4 u4 h4 =>
            simp only [Prod.mk.injEq, Except.ok.injEq] at h
            obtain ⟨hs', -⟩ := h
            subst hs'
            have tr1 := reset_trace env s
            rw [h1] at tr1
            have tr2 := configure_power_self_test_trace env s1
            rw [h2] at tr2
            have tr3 := execute_self_test_trace env s2
            rw [h3] at tr3
            have tr4 := reset_trace env s3
            rw [h4] at tr4
            dsimp only at tr1 tr2 tr3 tr4
            omega
        · simp at h
  · intro env s s1 s2 s3 e hreset hsetup hexec
    constructor
    · unfold run_self_test
      rw [hreset]
      dsimp only
      rw [hsetup]
      dsimp only
      rw [hexec]
    · have tr1 := reset_trace env s
      rw [hreset] at tr1
      have tr2 := configure_power_self_test_trace env s1
      rw [hsetup] at tr2
      have tr3 := execute_self_test_trace env s2
      rw [hexec] at tr3
      have tr4 := reset_trace env s3
      dsimp only at tr1 tr2 tr3 tr4
      omega
  · intro env s s1 s2 e hreset hsetup
    constructor
    · unfold run_self_test
      rw [hreset]
      dsimp only
      rw [hsetup]
    · have tr1 := reset_trace env s
      rw [hreset] at tr1
      have tr2 := configure_power_self_test_trace env s1
      rw [hsetup] at tr2
      dsimp only at tr1 tr2
      omega

/-- Environment in which the Z-axis burst read fails with a transport error
while every other transaction succeeds: the failure strikes inside the
sampling loop. -/
def envZFail : Env Unit :=
  { run := fun _ req =>
      match req with
      | BusReq.readReg _ => Except.ok [0]
      | BusReq.readMany _ _ => Except.error ()
      | BusReq.writeReg _ _ => Except.ok [] }

/-- Witness for C6's amended theorem: a successful run (two resets), a run
failing inside the sampling loop (exit reset still attempted, original error
propagated, two reset attempts), and a run failing during the power-control
setup (one reset only). -/
theorem self_test_reset_discipline_witness :
    (resetWriteCount (run_self_test env40 devSt0).1.events =
      resetWriteCount devSt0.events + 2) ∧
    (run_self_test envZFail devSt0 =
      ((reset envZFail (execute_self_test_sequence envZFail
        (configure_power_control_for_self_test envZFail
          (reset envZFail devSt0).1).1).1).1,
        Except.error (DErr.interface ())) ∧
      resetWriteCount (reset envZFail (execute_self_test_sequence envZFail
        (configure_power_control_for_self_test envZFail
          (reset envZFail devSt0).1).1).1).1.events =
        resetWriteCount devSt0.events + 2) ∧
    (run_self_test envPowerFail devSt0 =
      ((configure_power_control_for_self_test envPowerFail
        (reset envPowerFail devSt0).1).1, Except.error (DErr.interface ())) ∧
      resetWriteCount (configure_power_control_for_self_test envPowerFail
        (reset envPowerFail devSt0).1).1.events =
        resetWriteCount devSt0.events + 1) :=
  ⟨by
    have hrun : run_self_test env40 devSt0 =
        ((run_self_test env40 devSt0).1, Except.ok
          { passed := true
            baseline_avg_z := 0
            stimulated_avg_z := 10
            delta_z_lsb := 10
            samples_per_window := 20
            user_flag := true
            timed_out := false }) := by decide
    exact (self_test_reset_discipline Unit).1 env40 devSt0 _ _ hrun,
   (self_test_reset_discipline Unit).2.1 envZFail devSt0
     (reset envZFail devSt0).1
     (configure_power_control_for_self_test envZFail (reset envZFail devSt0).1).1
     (execute_self_test_sequence envZFail
       (configure_power_control_for_self_test envZFail
         (reset envZFail devSt0).1).1).1
     (DErr.interface ()) (by decide) (by decide) (by decide),
   (self_test_reset_discipline Unit).2.2 envPowerFail devSt0
     (reset envPowerFail devSt0).1
     (configure_power_control_for_self_test envPowerFail
       (reset envPowerFail devSt0).1).1
     (DErr.interface ()) (by decide) (by decide)⟩

/-- The elapsed-time bump of one accumulation step. -/
theorem accumulateSample_elapsed (l : LoopSt) (z : Int) :
    (accumulateSample l z).elapsed_ns =
      satAdd32 l.elapsed_ns SELF_TEST_SAMPLE_PERIOD_NS := by
  unfold accumulateSample
  dsimp only
  split <;> split <;> rfl

/-- `reset` succeeds on an all-accepting environment. -/
theorem reset_ok (env : Env E) (s : DevSt E)
    (hok : ∀ hist req, ∃ bs, env.run hist req = Except.ok bs) :
    ∃ s1, reset env s = (s1, Except.ok ()) := by
  obtain ⟨bs, hbs⟩ := hok s.events (BusReq.writeReg REG_RESET RESET_COMMAND)
  unfold reset busWrite
  rw [hbs]
  exact ⟨_, rfl⟩

/-- `update_self_test_register` succeeds on an all-accepting environment. -/
theorem update_self_test_register_ok (env : Env E) (m : SelfTest → SelfTest)
    (s : DevSt E)
    (hok : ∀ hist req, ∃ bs, env.run hist req = Except.ok bs) :
    ∃ s1, update_self_test_register env m s = (s1, Except.ok ()) := by
  obtain ⟨bs, hbs⟩ := hok s.events (BusReq.readReg REG_SELF_TEST)
  unfold update_self_test_register busRead
  rw [hbs]
  dsimp only
  by_cases hb :
      (m (SelfTest.fromByte (bs.headD 0 % 256))).toByte ≠ bs.headD 0 % 256
  · rw [if_pos hb]
    unfold busWrite
    obtain ⟨bs2, hbs2⟩ := hok
      ({ req := BusReq.readReg REG_SELF_TEST, resp := Except.ok bs } :: s.events)
      (BusReq.writeReg REG_SELF_TEST
        ((m (SelfTest.fromByte (bs.headD 0 % 256))).toByte))
    rw [hbs2]
    exact ⟨_, rfl⟩
  · rw [if_neg hb]
    exact ⟨_, rfl⟩

/-- `configure_power_control_for_self_test` succeeds on an all-accepting
environment. -/
theorem configure_power_self_test_ok (env : Env E) (s : DevSt E)
    (hok : ∀ hist req, ∃ bs, env.run hist req = Except.ok bs) :
    ∃ s1, configure_power_control_for_self_test env s = (s1, Except.ok ()) := by
  obtain ⟨bs, hbs⟩ := hok s.events (BusReq.readReg REG_POWER_CTL)
  unfold configure_power_control_for_self_test busRead
  rw [hbs]
  dsimp only
  by_cases hb :
      ((((PowerControl.fromByte (bs.headD 0 % 256)).set_lpf_disable
        false).set_mode PowerMode.Measure).set_filter_settle
        SettleFilter.Ms370).toByte ≠ bs.headD 0 % 256
  · rw [if_pos hb]
    unfold busWrite
    obtain ⟨bs2, hbs2⟩ := hok
      ({ req := BusReq.readReg REG_POWER_CTL, resp := Except.ok bs } :: s.events)
      (BusReq.writeReg REG_POWER_CTL
        ((((PowerControl.fromByte (bs.headD 0 % 256)).set_lpf_disable
          false).set_mode PowerMode.Measure).set_filter_settle
          SettleFilter.Ms370).toByte)
    rw [hbs2]
    exact ⟨_, rfl⟩
  · rw [if_neg hb]
    exact ⟨_, rfl⟩

/-- `read_self_test_register` succeeds on an all-accepting environment, and
under a never-done environment the returned value has `ST_DONE` clear. -/
theorem read_self_test_register_ok (env : Env E) (s : DevSt E)
    (hok : ∀ hist req, ∃ bs, env.run hist req = Except.ok bs)
    (hnd : ∀ hist bs, env.run hist (BusReq.readReg REG_SELF_TEST) =
      Except.ok bs → bs.headD 0 / 2 % 2 = 0) :
    ∃ s1 reg, read_self_test_register env s = (s1, Except.ok reg) ∧
      reg.st_done = false := by
  obtain ⟨bs, hbs⟩ := hok s.events (BusReq.readReg REG_SELF_TEST)
  have hb : (bs.headD 0 % 256) / 2 % 2 % 2 ≠ 1 := by
    have := hnd s.events bs hbs
    omega
  refine
    ⟨{ s with
        events := { req := BusReq.readReg REG_SELF_TEST, resp := Except.ok bs } :: s.events },
      SelfTest.fromByte (bs.headD 0 % 256), ?_, decide_eq_false hb⟩
  unfold read_self_test_register busRead
  rw [hbs]

/-- `read_z_raw` succeeds on an all-accepting environment. -/
theorem read_z_raw_ok (env : Env E) (s : DevSt E)
    (hok : ∀ hist req, ∃ bs, env.run hist req = Except.ok bs) :
    ∃ s1 z, read_z_raw env s = (s1, Except.ok z) := by
  obtain ⟨bs, hbs⟩ := hok s.events (BusReq.readMany REG_ZDATA_H 2)
  unfold read_z_raw busRead2
  rw [hbs]
  exact ⟨_, _, rfl⟩

/-- On an environment that always answers and never reports `ST_DONE`, the
sampling loop exhausts the 500 ms budget after exactly 200 samples and exits
with the timeout flag set. -/
theorem collect_loop_times_out (env : Env E)
    (hok : ∀ hist req, ∃ bs, env.run hist req = Except.ok bs)
    (hnd : ∀ hist bs, env.run hist (BusReq.readReg REG_SELF_TEST) =
      Except.ok bs → bs.headD 0 / 2 % 2 = 0) :
    ∀ (fuel k : Nat) (l : LoopSt) (s : DevSt E),
      l.elapsed_ns = k * SELF_TEST_SAMPLE_PERIOD_NS →
      k ≤ 200 →
      200 < fuel + k →
      ∃ s' stats, collect_loop env fuel l s = (s', Except.ok stats) ∧
        stats.timed_out = true ∧
        zReadCount s'.events = zReadCount s.events + (200 - k) := by
  intro fuel
  induction fuel with
  | zero =>
    intro k l s h1 h2 h3
    omega
  | succ n ih =>
    intro k l s h1 h2 h3
    unfold collect_loop
    by_cases hto : SELF_TEST_TIMEOUT_NS ≤ l.elapsed_ns
    · rw [if_pos hto]
      have hk : k = 200 := by
        rw [h1] at hto
        unfold SELF_TEST_TIMEOUT_NS SELF_TEST_TIMEOUT_MS
          SELF_TEST_SAMPLE_PERIOD_NS at hto
        omega
      refine ⟨s, _, rfl, ?_, by omega⟩
      simp [finalizeWindows]
    · rw [if_neg hto]
      obtain ⟨s1, reg, hrd, hnd1⟩ := read_self_test_register_ok env s hok hnd
      rw [hrd]
      dsimp only
      rw [hnd1]
      rw [if_neg (by simp)]
      obtain ⟨s2, z, hz⟩ := read_z_raw_ok env s1 hok
      rw [hz]
      dsimp only
      have hklt : k < 200 := by
        rw [h1] at hto
        unfold SELF_TEST_TIMEOUT_NS SELF_TEST_TIMEOUT_MS
          SELF_TEST_SAMPLE_PERIOD_NS at hto
        omega
      have helapsed :
          (accumulateSample { l with last_reg := reg } z).elapsed_ns =
            (k + 1) * SELF_TEST_SAMPLE_PERIOD_NS := by
        rw [accumulateSample_elapsed]
        dsimp only
        rw [h1]
        unfold satAdd32 SELF_TEST_SAMPLE_PERIOD_NS
        omega
      obtain ⟨s', stats, hloop, hto', hcount⟩ :=
        ih (k + 1) (accumulateSample { l with last_reg := reg } z) s2 helapsed
          (by omega) (by omega)
      refine ⟨s', stats, hloop, hto', ?_⟩
      have t1 := read_self_test_register_trace env s
      rw [hrd] at t1
      have t2 := read_z_raw_trace env s1
      rw [hz] at t2
      dsimp only at t1 t2
      omega

/-- Environment in which every transaction succeeds and the device never
reports self-test completion: every register reads back `0x00`. -/
def envNever : Env Unit :=
  { run := fun _ req =>
      match req with
      | BusReq.readReg _ => Except.ok [0]
      | BusReq.readMany _ n => Except.ok (List.replicate n 0)
      | BusReq.writeReg _ _ => Except.ok [] }

/-- C9: on any environment in which every bus transaction succeeds and the
device never sets `ST_DONE` in the `SELF_TEST` register, `run_self_test`
returns `Ok` (timeout is not an error): the sampling loop accumulates the
fixed 2.5 ms per-sample delay until the 500 ms budget is reached, taking
exactly 200 Z-axis samples, and the report has `timed_out = true` and
`passed = false`. -/
theorem self_test_timeout_is_ok (env : Env E) (s : DevSt E)
    (hok : ∀ hist req, ∃ bs, env.run hist req = Except.ok bs)
    (hnd : ∀ hist bs, env.run hist (BusReq.readReg REG_SELF_TEST) =
      Except.ok bs → bs.headD 0 / 2 % 2 = 0) :
    ∃ s' r, run_self_test env s = (s', Except.ok r) ∧
      r.timed_out = true ∧ r.passed = false ∧
      zReadCount s'.events = zReadCount s.events + 200 := by
  obtain ⟨s1, h1⟩ := reset_ok env s hok
  obtain ⟨s2, h2⟩ := configure_power_self_test_ok env s1 hok
  obtain ⟨s2a, h2a⟩ :=
    update_self_test_register_ok env (fun reg => reg.set_st false) s2 hok
  obtain ⟨s2b, h2b⟩ :=
    update_self_test_register_ok env (fun reg => reg.set_st true) s2a hok
  obtain ⟨s2c, reg0, h2c, -⟩ := read_self_test_register_ok env s2b hok hnd
  obtain ⟨sL, stats, hL, hLto, hLcount⟩ :=
    collect_loop_times_out env hok hnd COLLECT_FUEL 0 (initLoopSt reg0) s2c
      rfl (by omega) (by decide)
  obtain ⟨s3x, h3x⟩ :=
    update_self_test_register_ok env (fun reg => reg.set_st false) sL hok
  obtain ⟨s4, h4⟩ := reset_ok env s3x hok
  unfold run_self_test
  rw [h1]
  dsimp only
  rw [h2]
  dsimp only
  unfold execute_self_test_sequence clear_self_test_trigger trigger_self_test
    collect_self_test_windows
  rw [h2a]
  dsimp only
  rw [h2b]
  dsimp only
  rw [h2c]
  dsimp only
  rw [hL]
  dsimp only
  rw [h3x]
  dsimp only
  rw [h4]
  dsimp only
  refine ⟨s4, _, rfl, ?_, ?_, ?_⟩
  · exact hLto
  · simp [hLto]
  · have t1 := (reset_trace env s).2
    rw [h1] at t1
    have t2 := (configure_power_self_test_trace env s1).2
    rw [h2] at t2
    have t2a :=
      (update_self_test_register_trace env (fun reg => reg.set_st false) s2).2
    rw [h2a] at t2a
    have t2b :=
      (update_self_test_register_trace env (fun reg => reg.set_st true) s2a).2
    rw [h2b] at t2b
    have t2c := (read_self_test_register_trace env s2b).2
    rw [h2c] at t2c
    have t3x :=
      (update_self_test_register_trace env (fun reg => reg.set_st false) sL).2
    rw [h3x] at t3x
    have t4 := (reset_trace env s3x).2
    rw [h4] at t4
    dsimp only at t1 t2 t2a t2b t2c t3x t4
    omega

/-- Concrete instance of the timeout scenario: on `envNever` (all
transactions succeed, `ST_DONE` never set) the self-test run from the initial
state succeeds with a timed-out, failed report after exactly 200 samples. -/
theorem self_test_timeout_is_ok_witness :
    ∃ s' r, run_self_test envNever devSt0 = (s', Except.ok r) ∧
      r.timed_out = true ∧ r.passed = false ∧
      zReadCount s'.events = zReadCount devSt0.events + 200 :=
  self_test_timeout_is_ok envNever devSt0
    (fun hist req =>
      match req with
      | BusReq.readReg _ => ⟨[0], rfl⟩
      | BusReq.readMany _ n => ⟨List.replicate n 0, rfl⟩
      | BusReq.writeReg _ _ => ⟨[], rfl⟩)
    (fun hist bs h => by
      have h' : Except.ok (ε := Unit) [0] = Except.ok bs := h
      have hb : bs = [0] := (Except.ok.inj h').symm
      subst hb
      rfl)

/-- Wrap-around into the `i16` range is the identity on in-range values. -/
theorem i16_wrap_eq_self (x : Int) (h1 : -32768 ≤ x) (h2 : x ≤ 32767) :
    i16_wrap x = x := by
  unfold i16_wrap
  omega

/-- `i16::abs` agrees with the mathematical absolute value away from the
wrapping corner case `-32768`. -/
theorem i16_abs_eq_abs (x : Int) (h1 : -32767 ≤ x) (h2 : x ≤ 32767) :
    i16_abs x = |x| := by
  unfold i16_abs
  rcases lt_or_le x 0 with hx | hx
  · rw [if_pos hx, abs_of_neg hx, i16_wrap_eq_self _ (by omega) (by omega)]
  · rw [if_neg (not_lt.mpr hx), abs_of_nonneg hx,
      i16_wrap_eq_self _ (by omega) (by omega)]

/-- Truncating division of an in-range `i16` sum by the window size. -/
theorem tdiv20_bound (s : Int) (h1 : -32768 ≤ s) (h2 : s ≤ 32767) :
    -1638 ≤ Int.tdiv s 20 ∧ Int.tdiv s 20 ≤ 1638 := by
  have habs : (s.tdiv 20).natAbs = s.natAbs / 20 := by
    have h := Int.natAbs_tdiv s 20
    simp only [Int.natAbs_ofNat] at h
    rw [h]
    rfl
  omega

/-- Invariant of the sampling-loop state: the two windows fill in lockstep
(capped at 20 samples), their sums agree while the windows are still filling,
and both saturating sums stay in the `i16` range. -/
def loopInv (l : LoopSt) : Prop :=
  l.baseline_count = l.rolling_count ∧
  l.rolling_count ≤ 20 ∧
  (l.baseline_count < 20 → l.baseline_sum = l.rolling_sum) ∧
  -32768 ≤ l.baseline_sum ∧ l.baseline_sum ≤ 32767 ∧
  -32768 ≤ l.rolling_sum ∧ l.rolling_sum ≤ 32767

/-- The initial loop state satisfies the loop invariant. -/
theorem initLoopSt_inv (reg : SelfTest) : loopInv (initLoopSt reg) := by
  unfold loopInv initLoopSt
  dsimp only
  exact ⟨rfl, by decide, fun _ => rfl, by decide, by decide, by decide,
    by decide⟩

/-- One accumulation step preserves the loop invariant. -/
theorem accumulateSample_inv (l : LoopSt) (z : Int) (h : loopInv l) :
    loopInv (accumulateSample l z) := by
  obtain ⟨h1, h2, h3, h4, h5, h6, h7⟩ := h
  unfold loopInv accumulateSample
  dsimp only
  by_cases hb : l.baseline_count < SELF_TEST_SAMPLES_PER_WINDOW
  · have hb20 : l.baseline_count < 20 := hb
    have hc2 : ¬(l.rolling_count = SELF_TEST_SAMPLES_PER_WINDOW) := by
      show ¬(l.rolling_count = 20)
      omega
    rw [if_pos hb]
    dsimp only
    rw [if_neg hc2]
    dsimp only
    refine ⟨?_, ?_, ?_, ?_, ?_, ?_, ?_⟩
    · rw [h1]
    · unfold satSucc16
      omega
    · intro _
      rw [h3 hb20]
    · unfold satAdd16
      omega
    · unfold satAdd16
      omega
    · unfold satAdd16
      omega
    · unfold satAdd16
      omega
  · have hb20 : ¬(l.baseline_count < 20) := hb
    have hc2 : l.rolling_count = SELF_TEST_SAMPLES_PER_WINDOW := by
      show l.rolling_count = 20
      omega
    rw [if_neg hb, if_pos hc2]
    try dsimp only
    refine ⟨h1, h2, ?_, h4, h5, ?_, ?_⟩
    · intro hx
      exact absurd hx hb20
    · unfold satAdd16
      omega
    · unfold satAdd16
      omega

/-- Window statistics computed from an invariant-satisfying loop state: the
two averages are either equal (windows still filling identically) or each the
truncating 20-sample average of an in-range sum, hence within 1638 LSB. -/
theorem finalizeWindows_avg (b : Bool) (l : LoopSt) (h : loopInv l) :
    (finalizeWindows b l).baseline_avg = (finalizeWindows b l).stimulated_avg ∨
    (-1638 ≤ (finalizeWindows b l).baseline_avg ∧
      (finalizeWindows b l).baseline_avg ≤ 1638 ∧
      -1638 ≤ (finalizeWindows b l).stimulated_avg ∧
      (finalizeWindows b l).stimulated_avg ≤ 1638) := by
  obtain ⟨h1, h2, h3, h4, h5, h6, h7⟩ := h
  unfold finalizeWindows
  dsimp only
  by_cases hc : l.baseline_count < 20
  · left
    rw [h1, h3 hc]
  · right
    have hc20 : l.baseline_count = 20 := by omega
    have hr20 : l.rolling_count = 20 := by omega
    rw [hc20, hr20]
    have ht : toSigned16 20 = 20 := by decide
    rw [ht]
    rw [if_pos (by decide), if_pos (by decide)]
    exact ⟨(tdiv20_bound _ h4 h5).1, (tdiv20_bound _ h4 h5).2,
      (tdiv20_bound _ h6 h7).1, (tdiv20_bound _ h6 h7).2⟩

/-- Any `Ok` outcome of the sampling loop started from an
invariant-satisfying state has window averages that are either equal or both
within 1638 LSB. -/
theorem collect_loop_ok_stats (env : Env E) :
    ∀ (fuel : Nat) (l : LoopSt) (s s' : DevSt E) (stats : SelfTestWindowStats),
      loopInv l →
      collect_loop env fuel l s = (s', Except.ok stats) →
      stats.baseline_avg = stats.stimulated_avg ∨
      (-1638 ≤ stats.baseline_avg ∧ stats.baseline_avg ≤ 1638 ∧
        -1638 ≤ stats.stimulated_avg ∧ stats.stimulated_avg ≤ 1638) := by
  intro fuel
  induction fuel with
  | zero =>
    intro l s s' stats hinv h
    unfold collect_loop at h
    simp only [Prod.mk.injEq, Except.ok.injEq] at h
    obtain ⟨-, h⟩ := h
    subst h
    exact finalizeWindows_avg true l hinv
  | succ n ih =>
    intro l s s' stats hinv h
    unfold collect_loop at h
    split at h
    · simp only [Prod.mk.injEq, Except.ok.injEq] at h
      obtain ⟨-, h⟩ := h
      subst h
      exact finalizeWindows_avg true l hinv
    · rcases hr : read_self_test_register env s with ⟨s1, r1⟩
      rw [hr] at h
      cases r1 with
      | error e => simp at h
      | ok reg =>
        dsimp only at h
        split at h
        · simp only [Prod.mk.injEq, Except.ok.injEq] at h
          obtain ⟨-, h⟩ := h
          subst h
          exact finalizeWindows_avg false _ hinv
        · rcases hz : read_z_raw env s1 with ⟨s2, r2⟩
          rw [hz] at h
          cases r2 with
          | error e => simp at h
          | ok z =>
            dsimp only at h
            exact ih _ s2 s' stats
              (accumulateSample_inv { l with last_reg := reg } z hinv) h

/-- Any `Ok` outcome of `collect_self_test_windows` has window averages that
are either equal or both within 1638 LSB. -/
theorem collect_windows_ok_stats (env : Env E) (s s' : DevSt E)
    (stats : SelfTestWindowStats)
    (h : collect_self_test_windows env s = (s', Except.ok stats)) :
    stats.baseline_avg = stats.stimulated_avg ∨
    (-1638 ≤ stats.baseline_avg ∧ stats.baseline_avg ≤ 1638 ∧
      -1638 ≤ stats.stimulated_avg ∧ stats.stimulated_avg ≤ 1638) := by
  unfold collect_self_test_windows at h
  rcases hr : read_self_test_register env s with ⟨s1, r1⟩
  rw [hr] at h
  cases r1 with
  | error e => simp at h
  | ok reg =>
    dsimp only at h
    exact collect_loop_ok_stats env COLLECT_FUEL _ s1 s' stats
      (initLoopSt_inv reg) h

/-- Any `Ok` report of the arm/sample/disarm sequence satisfies the delta
formula and the pass criterion. -/
theorem execute_report_formula (env : Env E) (s s' : DevSt E)
    (r : SelfTestReport)
    (h : execute_self_test_sequence env s = (s', Except.ok r)) :
    r.delta_z_lsb = r.stimulated_avg_z - r.baseline_avg_z ∧
    (r.passed = true ↔
      r.timed_out = false ∧ r.user_flag = true ∧
      SELF_TEST_THRESHOLD_LSB ≤ |r.delta_z_lsb|) := by
  unfold execute_self_test_sequence at h
  rcases h1 : clear_self_test_trigger env s with ⟨s1, r1⟩
  rw [h1] at h
  cases r1 with
  | error e => simp at h
  | ok u1 =>
    dsimp only at h
    rcases h2 : trigger_self_test env s1 with ⟨s2, r2⟩
    rw [h2] at h
    cases r2 with
    | error e => simp at h
    | ok u2 =>
      dsimp only at h
      rcases h3 : collect_self_test_windows env s2 with ⟨s3, r3⟩
      rw [h3] at h
      cases r3 with
      | error e => simp at h
      | ok stats =>
        dsimp only at h
        rcases h4 : clear_self_test_trigger env s3 with ⟨s4, r4⟩
        rw [h4] at h
        cases r4 with
        | error e => simp at h
        | ok u4 =>
          dsimp only at h
          simp only [Prod.mk.injEq, Except.ok.injEq] at h
          obtain ⟨-, hr⟩ := h
          subst hr
          have hP := collect_windows_ok_stats env s2 s3 stats h3
          have hd : -32767 ≤ stats.stimulated_avg - stats.baseline_avg ∧
              stats.stimulated_avg - stats.baseline_avg ≤ 32767 := by
            rcases hP with hEq | hB
            · rw [hEq]
              omega
            · omega
          have hw : i16_wrap (stats.stimulated_avg - stats.baseline_avg) =
              stats.stimulated_avg - stats.baseline_avg :=
            i16_wrap_eq_self _ (by omega) (by omega)
          constructor
          · dsimp only
            exact hw
          · dsimp only
            rw [hw, i16_abs_eq_abs _ (by omega) (by omega)]
            simp [Bool.and_eq_true, Bool.not_eq_true', decide_eq_true_eq,
              and_assoc]

set_option maxRecDepth 16000 in
/-- C5: every self-test run that completes without a bus error produces a
report whose delta equals the stimulated window average minus the baseline
window average, and whose `passed` flag is true exactly when the run did not
time out, the hardware user self-test flag observed at exit is set, and the
absolute delta is at least the 5 LSB threshold. -/
theorem self_test_report_formula (env : Env E) (s s' : DevSt E)
    (r : SelfTestReport)
    (h : run_self_test env s = (s', Except.ok r)) :
    r.delta_z_lsb = r.stimulated_avg_z - r.baseline_avg_z ∧
    (r.passed = true ↔
      r.timed_out = false ∧ r.user_flag = true ∧
      SELF_TEST_THRESHOLD_LSB ≤ |r.delta_z_lsb|) := by
  unfold run_self_test at h
  rcases h1 : reset env s with ⟨s1, r1⟩
  rw [h1] at h
  cases r1 with
  | error e => simp at h
  | ok u1 =>
    dsimp only at h
    rcases h2 : configure_power_control_for_self_test env s1 with ⟨s2, r2⟩
    rw [h2] at h
    cases r2 with
    | error e => simp at h
    | ok u2 =>
      dsimp only at h
      rcases h3 : execute_self_test_sequence env s2 with ⟨s3, r3⟩
      rw [h3] at h
      cases r3 with
      | error err =>
        dsimp only at h
        simp at h
      | ok report =>
        dsimp only at h
        rcases h4 : reset env s3 with ⟨s4, r4⟩
        rw [h4] at h
        cases r4 with
        | error e => simp at h
        | ok u4 =>
          dsimp only at h
          simp only [Prod.mk.injEq, Except.ok.injEq] at h
          obtain ⟨-, hr⟩ := h
          subst hr
          exact execute_report_formula env s2 s3 report h3

set_option maxRecDepth 16000 in
/-- Concrete instance of the report formula on the 40-sample scenario
environment: the run completes with the errata report and both the delta
formula and the pass criterion hold of it. -/
theorem self_test_report_formula_witness :
    ∃ r, (run_self_test env40 devSt0).2 = Except.ok r ∧
      r.delta_z_lsb = r.stimulated_avg_z - r.baseline_avg_z ∧
      (r.passed = true ↔
        r.timed_out = false ∧ r.user_flag = true ∧
        SELF_TEST_THRESHOLD_LSB ≤ |r.delta_z_lsb|) := by
  have h2 : (run_self_test env40 devSt0).2 = Except.ok
      { passed := true, baseline_avg_z := 0, stimulated_avg_z := 10,
        delta_z_lsb := 10, samples_per_window := 20, user_flag := true,
        timed_out := false } := by decide
  have h : run_self_test env40 devSt0 =
      ((run_self_test env40 devSt0).1, Except.ok
        { passed := true, baseline_avg_z := 0, stimulated_avg_z := 10,
          delta_z_lsb := 10, samples_per_window := 20, user_flag := true,
          timed_out := false }) := by
    rw [← h2]
  obtain ⟨hd, hp⟩ := self_test_report_formula env40 devSt0 _ _ h
  exact ⟨_, h2, hd, hp⟩


/-- One-step unfolding of the sampling loop at positive fuel. -/
theorem collect_loop_succ (env : Env E) (fuel : Nat) (l : LoopSt)
    (s : DevSt E) :
    collect_loop env (fuel + 1) l s =
      if SELF_TEST_TIMEOUT_NS ≤ l.elapsed_ns then
        (s, Except.ok (finalizeWindows true l))
      else
        match read_self_test_register env s with
        | (s1, Except.error e) => (s1, Except.error e)
        | (s1, Except.ok reg) =>
          if reg.st_done then
            (s1, Except.ok (finalizeWindows false { l with last_reg := reg }))
          else
            match read_z_raw env s1 with
            | (s2, Except.error e) => (s2, Except.error e)
            | (s2, Except.ok z) =>
              collect_loop env fuel (accumulateSample { l with last_reg := reg } z) s2 :=
  rfl

/-- Fuel stability of the sampling loop: once the remaining fuel suffices to
reach the timeout budget, adding more fuel does not change the result. With
the initial elapsed time 0 this holds from 200 iterations on, so the 201 used
by `collect_self_test_windows` make the embedding independent of the fuel
choice. -/
theorem collect_loop_fuel_stable (env : Env E) :
    ∀ (fuel : Nat) (l : LoopSt) (s : DevSt E),
      SELF_TEST_TIMEOUT_NS ≤
        l.elapsed_ns + fuel * SELF_TEST_SAMPLE_PERIOD_NS →
      collect_loop env (fuel + 1) l s = collect_loop env (fuel + 2) l s := by
  intro fuel
  induction fuel with
  | zero =>
    intro l s h
    have hto : SELF_TEST_TIMEOUT_NS ≤ l.elapsed_ns := by omega
    show collect_loop env (0 + 1) l s = collect_loop env (1 + 1) l s
    rw [collect_loop_succ env 0 l s, collect_loop_succ env 1 l s]
    rw [if_pos hto, if_pos hto]
  | succ n ih =>
    intro l s h
    show collect_loop env (n + 1 + 1) l s = collect_loop env (n + 2 + 1) l s
    rw [collect_loop_succ env (n + 1) l s, collect_loop_succ env (n + 2) l s]
    by_cases hto : SELF_TEST_TIMEOUT_NS ≤ l.elapsed_ns
    · rw [if_pos hto, if_pos hto]
    · rw [if_neg hto, if_neg hto]
      rcases hr : read_self_test_register env s with ⟨s1, r1⟩
      cases r1 with
      | error e => rfl
      | ok reg =>
        dsimp only
        by_cases hd : reg.st_done = true
        · rw [if_pos hd, if_pos hd]
        · rw [if_neg hd, if_neg hd]
          rcases hz : read_z_raw env s1 with ⟨s2, r2⟩
          cases r2 with
          | error e => rfl
          | ok z =>
            dsimp only
            exact ih _ s2 (by
              rw [accumulateSample_elapsed]
              dsimp only
              unfold satAdd32 SELF_TEST_TIMEOUT_NS SELF_TEST_TIMEOUT_MS
                SELF_TEST_SAMPLE_PERIOD_NS
              unfold SELF_TEST_TIMEOUT_NS SELF_TEST_TIMEOUT_MS
                SELF_TEST_SAMPLE_PERIOD_NS at h
              omega)
